
/-
  Verification of PixieVeil against its natural-language specification.

  Shallow embedding of the anonymisation engine
  (src/pixieveil/processing/anonymizer.py), the series filter
  (src/pixieveil/processing/series_filter.py), the storage manager and
  completion tracker (src/pixieveil/storage/storage_manager.py), the
  uploader (src/pixieveil/storage/remote_storage.py) and the C-STORE
  handler (src/pixieveil/dicom_server/handlers.py).

  Modelling conventions:
  * A DICOM dataset is a finite association list from tag codes to string
    values.  A tag code is the combined 32-bit (group, element) number,
    exactly the integer pydicom's `Tag(int)` denotes; in particular the
    literal `0x6000` used by the anonymiser's overlay loop denotes the
    tag (0x0000, 0x6000), not the overlay group 0x6000.
  * Entropy (pydicom's `generate_uid`, Python's `random`) is modelled by a
    counter threaded through the anonymiser state; each draw consumes one
    counter value and the draws for UID generation are pairwise distinct.
  * Wall-clock times are naturals.  The quiescence test
    `now - last_received > timeout` uses truncated subtraction, which
    agrees with the Python float comparison for every `timeout ≥ 0`.
  * Disk and network I/O outcomes (anonymiser save, `shutil.move`, ZIP
    creation, the HTTP upload) are oracle parameters, one per call site.
-/
import Mathlib

namespace PixieVeil

/-! ### Association-list helpers (Python dict semantics) -/

/-- Lookup of the first binding of a key in an association list. -/
def lookupA {α β : Type} [DecidableEq α] (k : α) : List (α × β) → Option β
  | [] => none
  | (a, b) :: t => if a = k then some b else lookupA k t

/-- Replace the value at a key in place, or append a fresh binding at the
end (Python `d[k] = v` insertion-order semantics). -/
def setA {α β : Type} [DecidableEq α] (k : α) (v : β) : List (α × β) → List (α × β)
  | [] => [(k, v)]
  | (a, b) :: t => if a = k then (k, v) :: t else (a, b) :: setA k v t

/-- Remove every binding of a key (Python `del d[k]` on unique keys). -/
def eraseA {α β : Type} [DecidableEq α] (k : α) (l : List (α × β)) : List (α × β) :=
  l.filter (fun p => p.1 ≠ k)

/-- Add an element if absent (directory `mkdir(exist_ok=True)` semantics). -/
def listInsert {α : Type} [DecidableEq α] (x : α) (l : List α) : List α :=
  if x ∈ l then l else x :: l

/-! ### DICOM datasets

A dataset is a finite association list from combined tag codes to string
values, mirroring `pydicom.Dataset` attribute access for the tags the
anonymiser touches. -/

/-- Combined 32-bit DICOM tag code: `group * 0x10000 + element`. -/
abbrev Tag := Nat

abbrev Dataset := List (Tag × String)

def tagSOPInstanceUID : Tag := 0x00080018
def tagAccessionNumber : Tag := 0x00080050
def tagModality : Tag := 0x00080060
def tagInstitutionName : Tag := 0x00080080
def tagInstitutionAddress : Tag := 0x00080081
def tagReferringPhysicianName : Tag := 0x00080090
def tagStudyDescription : Tag := 0x00081030
def tagSeriesDescription : Tag := 0x0008103E
def tagOperatorsName : Tag := 0x00081070
def tagPerformingPhysicianName : Tag := 0x00081050
def tagInstanceCreationDate : Tag := 0x00080012
def tagInstanceCreationTime : Tag := 0x00080013
def tagStudyDate : Tag := 0x00080020
def tagSeriesDate : Tag := 0x00080021
def tagAcquisitionDate : Tag := 0x00080022
def tagContentDate : Tag := 0x00080023
def tagAcquisitionDateTime : Tag := 0x0008002A
def tagStudyTime : Tag := 0x00080030
def tagSeriesTime : Tag := 0x00080031
def tagPatientName : Tag := 0x00100010
def tagPatientID : Tag := 0x00100020
def tagPatientBirthDate : Tag := 0x00100030
def tagPatientSex : Tag := 0x00100040
def tagOtherPatientIDs : Tag := 0x00101000
def tagOtherPatientIDsSequence : Tag := 0x00101002
def tagPatientAge : Tag := 0x00101010
def tagPatientSize : Tag := 0x00101020
def tagPatientWeight : Tag := 0x00101030
def tagPatientAddress : Tag := 0x00101040
def tagMilitaryRank : Tag := 0x00101080
def tagPatientTelephoneNumbers : Tag := 0x00102154
def tagRequestAttributesSequence : Tag := 0x00400275
def tagClinicalTrialSponsorName : Tag := 0x00120010
def tagClinicalTrialProtocolID : Tag := 0x00120020
def tagStudyInstanceUID : Tag := 0x0020000D
def tagSeriesInstanceUID : Tag := 0x0020000E
def tagFrameOfReferenceUID : Tag := 0x00200052
/-- Tag (0028,0301), the burned-in annotation flag. -/
def tagBurnedIn : Tag := 0x00280301

/-- Attribute read, `getattr(ds, name, None)`. -/
def dsGet (ds : Dataset) (t : Tag) : Option String := lookupA t ds

/-- Presence test, `hasattr(ds, name)` / `name in ds`. -/
def dsHas (ds : Dataset) (t : Tag) : Bool := (dsGet ds t).isSome

/-- Attribute write, `setattr(ds, name, v)`: replaces in place or appends. -/
def dsSet (ds : Dataset) (t : Tag) (v : String) : Dataset := setA t v ds

/-- Element deletion, `del ds[tag]`. -/
def dsErase (ds : Dataset) (t : Tag) : Dataset := eraseA t ds

/-- Guarded write, the `if name in ds: ds.name = v` idiom. -/
def dsSetIfHas (ds : Dataset) (t : Tag) (v : String) : Dataset :=
  if dsHas ds t then dsSet ds t v else ds

/-- A data element is private when its group number is odd. -/
def isPrivateTag (t : Tag) : Bool := (t / 0x10000) % 2 = 1

/-- Group number of a combined tag code. -/
def tagGroup (t : Tag) : Nat := t / 0x10000

/-! ### Anonymiser (src/pixieveil/processing/anonymizer.py) -/

/-- Anonymiser instance state: the `pseudo_values` cache plus a counter
modelling the entropy pool behind `generate_uid` / `random`. -/
structure AnonState where
  pseudo_values : List (String × String)
  uidSeq : Nat
deriving DecidableEq

def AnonState.fresh : AnonState := ⟨[], 0⟩

/-- The n-th draw from `pydicom.uid.generate_uid(prefix="2.25.")`:
modelled as a fresh UID, pairwise distinct across draws. -/
def genUID (n : Nat) : String :=
  String.mk (['2', '.', '2', '5', '.'] ++ List.replicate (n + 1) '0')

/-- The n-th draw from `_generate_random_string(length)`: a string of the
requested length drawn from the entropy pool. -/
def randomString (len seed : Nat) : String :=
  String.mk ((List.range len).map (fun i => Char.ofNat (97 + (seed + i) % 26)))

/-- Cache-key construction of `_generate_pseudo_value`: the category,
with `_<study_uid>` and `_<series_uid>` appended only when the optional
argument is truthy (Python: `None` and `""` are falsy). -/
def cache_key (category : String) (study_uid series_uid : Option String) : String :=
  let k := category
  let k := match study_uid with
    | some u => if u = "" then k else k ++ "_" ++ u
    | none => k
  match series_uid with
  | some u => if u = "" then k else k ++ "_" ++ u
  | none => k

def uidCategories : List String := ["study", "series", "image", "frame_of_reference"]

/-- `Anonymizer._generate_pseudo_value`: return the cached value for the
cache key, or draw a fresh one (a UID for the UID categories, a 12-char
random string otherwise) and cache it. -/
def generate_pseudo_value (st : AnonState) (category : String)
    (study_uid series_uid : Option String) : String × AnonState :=
  let key := cache_key category study_uid series_uid
  match lookupA key st.pseudo_values with
  | some v => (v, st)
  | none =>
    let v := if category ∈ uidCategories then genUID st.uidSeq else randomString 12 st.uidSeq
    (v, ⟨st.pseudo_values ++ [(key, v)], st.uidSeq + 1⟩)

/-- Profile entry values: strings (actions) or booleans, as YAML allows. -/
inductive PVal where
  | str : String → PVal
  | flag : Bool → PVal
deriving DecidableEq

/-- Python truthiness of a profile value. -/
def pvalTruthy : PVal → Bool
  | .str s => s ≠ ""
  | .flag b => b

abbrev Profile := List (String × PVal)

def globalSwitches : List String := ["PixelBlackout", "KeepPrivateTags", "RetainStudyDate"]

/-- `profile_config.get(key, default)` coerced to a boolean switch. -/
def profileGet (p : Profile) (k : String) (dflt : Bool) : Bool :=
  match lookupA k p with
  | none => dflt
  | some v => pvalTruthy v

/-- Keyword → tag code table used for `hasattr`/`setattr` on named tags.
Unknown keywords behave like absent attributes. -/
def tagOfName (s : String) : Option Tag :=
  lookupA s [
    ("PatientName", tagPatientName), ("PatientID", tagPatientID),
    ("PatientBirthDate", tagPatientBirthDate), ("PatientSex", tagPatientSex),
    ("PatientAge", tagPatientAge), ("OtherPatientIDs", tagOtherPatientIDs),
    ("PatientAddress", tagPatientAddress), ("PatientSize", tagPatientSize),
    ("PatientWeight", tagPatientWeight),
    ("StudyInstanceUID", tagStudyInstanceUID),
    ("SeriesInstanceUID", tagSeriesInstanceUID),
    ("SOPInstanceUID", tagSOPInstanceUID),
    ("FrameOfReferenceUID", tagFrameOfReferenceUID),
    ("AccessionNumber", tagAccessionNumber),
    ("StudyDescription", tagStudyDescription),
    ("SeriesDescription", tagSeriesDescription),
    ("InstitutionName", tagInstitutionName),
    ("InstitutionAddress", tagInstitutionAddress),
    ("ReferringPhysicianName", tagReferringPhysicianName),
    ("OperatorsName", tagOperatorsName),
    ("PerformingPhysicianName", tagPerformingPhysicianName),
    ("StudyDate", tagStudyDate), ("SeriesDate", tagSeriesDate),
    ("AcquisitionDate", tagAcquisitionDate), ("StudyTime", tagStudyTime),
    ("SeriesTime", tagSeriesTime), ("Modality", tagModality),
    ("BurnedInAnnotation", tagBurnedIn),
    ("MilitaryRank", tagMilitaryRank),
    ("PatientTelephoneNumbers", tagPatientTelephoneNumbers),
    ("ClinicalTrialSponsorName", tagClinicalTrialSponsorName),
    ("ClinicalTrialProtocolID", tagClinicalTrialProtocolID)]

/-- `Anonymizer._apply_action_to_value` (string values; a boolean action
matches none of the string branches and falls through to `keep`). -/
def apply_action_to_value (st : AnonState) (action : PVal) (current : String)
    (tag_name : String) (study_uid series_uid : Option String) : String × AnonState :=
  match action with
  | .str a =>
    if a = "keep" then (current, st)
    else if a = "random" then
      (randomString current.length st.uidSeq, { st with uidSeq := st.uidSeq + 1 })
    else if a = "pseudo" then
      generate_pseudo_value st tag_name.toLower study_uid series_uid
    else if a = "ANONYMOUS" then ("ANONYMOUS", st)
    else if a = "UNKNOWN" then ("UNKNOWN", st)
    else (current, st)
  | .flag _ => (current, st)

/-- One iteration of the profile loop in `Anonymizer.anonymize`: skip the
global switches, then, when the tag is present, apply the action and
write the result back. -/
def applyProfileEntry (study_uid series_uid : Option String)
    (acc : Dataset × AnonState) (e : String × PVal) : Dataset × AnonState :=
  if e.1 ∈ globalSwitches then acc
  else
    match tagOfName e.1 with
    | none => acc
    | some t =>
      match dsGet acc.1 t with
      | none => acc
      | some cur =>
        let r := apply_action_to_value acc.2 e.2 cur e.1 study_uid series_uid
        (dsSet acc.1 t r.1, r.2)

/-- `Dataset.remove_private_tags()`: drop every odd-group element. -/
def remove_private_tags (ds : Dataset) : Dataset :=
  ds.filter (fun e => !(isPrivateTag e.1))

/-! Pipeline steps of `Anonymizer._default_anonymization`, written on
`(Dataset × AnonState)` pairs so the method body is a plain chain. -/

def dsSetP (t : Tag) (v : String) (p : Dataset × AnonState) : Dataset × AnonState :=
  (dsSet p.1 t v, p.2)

def dsSetIfHasP (t : Tag) (v : String) (p : Dataset × AnonState) : Dataset × AnonState :=
  (dsSetIfHas p.1 t v, p.2)

def dsEraseP (t : Tag) (p : Dataset × AnonState) : Dataset × AnonState :=
  (dsErase p.1 t, p.2)

/-- The `if "XInstanceUID" in ds: ds.X = self._generate_pseudo_value(cat)`
step: pseudonymise the tag when present (no study/series context is
passed at these call sites). -/
def pseudoStep (category : String) (t : Tag) (p : Dataset × AnonState) : Dataset × AnonState :=
  if dsHas p.1 t then
    let r := generate_pseudo_value p.2 category none none
    (dsSet p.1 t r.1, r.2)
  else p

/-- The unconditional `ds.AccessionNumber = self._generate_pseudo_value("accession")`. -/
def accessionStep (p : Dataset × AnonState) : Dataset × AnonState :=
  let r := generate_pseudo_value p.2 "accession" none none
  (dsSet p.1 tagAccessionNumber r.1, r.2)

/-- The closed sensitive-tag list removed by the default path. -/
def sensitiveTags : List Tag :=
  [tagOtherPatientIDsSequence, tagPatientTelephoneNumbers, tagMilitaryRank,
   tagRequestAttributesSequence, tagClinicalTrialSponsorName, tagClinicalTrialProtocolID]

/-- The integers of `range(0x6000, 0x6020, 2)`.  As pydicom tag codes
these denote the group-0x0000 elements 0x6000 … 0x601E, because
`Tag(0x6000)` is the combined code 0x00006000 — not the overlay groups. -/
def overlayLoopCodes : List Tag :=
  [0x6000, 0x6002, 0x6004, 0x6006, 0x6008, 0x600A, 0x600C, 0x600E,
   0x6010, 0x6012, 0x6014, 0x6016, 0x6018, 0x601A, 0x601C, 0x601E]

/-- The overlay loop of `_default_anonymization`
(`if g in ds: del ds[g]`, an unconditional erase in effect). -/
def overlayStep (p : Dataset × AnonState) : Dataset × AnonState :=
  (overlayLoopCodes.foldl (fun d c => dsErase d c) p.1, p.2)

/-- `Anonymizer._default_anonymization`, line by line.  `cd`/`ct` are the
values of `_current_date()` / `_current_time()`.  The `elif
(0x0028,0x0301) in ds` arm is dead code (it tests the same tag as the
`if` arm), so setting the burned-in flag is a guarded write. -/
def default_anonymization (st : AnonState) (cd ct : String) (ds : Dataset) :
    Dataset × AnonState :=
  (ds, st)
  |> dsSetP tagPatientName "Anonymous"
  |> dsSetP tagPatientID "ID-REDACTED"
  |> dsSetP tagPatientBirthDate ""
  |> dsSetP tagPatientSex ""
  |> dsSetIfHasP tagPatientAge ""
  |> dsSetIfHasP tagOtherPatientIDs ""
  |> dsSetIfHasP tagPatientAddress ""
  |> dsSetIfHasP tagPatientSize ""
  |> dsSetIfHasP tagPatientWeight ""
  |> pseudoStep "study" tagStudyInstanceUID
  |> pseudoStep "series" tagSeriesInstanceUID
  |> pseudoStep "image" tagSOPInstanceUID
  |> accessionStep
  |> dsSetP tagStudyDescription "Anonymized Study"
  |> dsSetIfHasP tagSeriesDescription "Anonymized Series"
  |> dsSetIfHasP tagInstitutionName ""
  |> dsSetIfHasP tagInstitutionAddress ""
  |> dsSetIfHasP tagReferringPhysicianName ""
  |> dsSetIfHasP tagOperatorsName ""
  |> dsSetIfHasP tagPerformingPhysicianName ""
  |> dsSetIfHasP tagInstanceCreationDate cd
  |> dsSetIfHasP tagInstanceCreationTime ct
  |> dsSetIfHasP tagStudyDate cd
  |> dsSetIfHasP tagContentDate cd
  |> dsSetIfHasP tagAcquisitionDate cd
  |> dsSetIfHasP tagAcquisitionDateTime (cd ++ ct)
  |> dsSetIfHasP tagStudyTime ct
  |> dsSetIfHasP tagSeriesTime ct
  |> dsEraseP tagOtherPatientIDsSequence
  |> dsEraseP tagPatientTelephoneNumbers
  |> dsEraseP tagMilitaryRank
  |> dsEraseP tagRequestAttributesSequence
  |> dsEraseP tagClinicalTrialSponsorName
  |> dsEraseP tagClinicalTrialProtocolID
  |> dsSetIfHasP tagBurnedIn "NO"
  |> overlayStep

/-- `Anonymizer.anonymize`: capture the original study/series UIDs, then
either run the profile loop and the three global switches (when a
non-empty profile configuration is loaded) or fall back to
`_default_anonymization`.  Saving to disk is outside the model. -/
def anonymize (profile : Option Profile) (st : AnonState) (cd ct : String)
    (ds : Dataset) : Dataset × AnonState :=
  let study_uid := dsGet ds tagStudyInstanceUID
  let series_uid := dsGet ds tagSeriesInstanceUID
  match profile with
  | some p =>
    if p = [] then default_anonymization st cd ct ds
    else
      let r := p.foldl (applyProfileEntry study_uid series_uid) (ds, st)
      -- PixelBlackout is a logging stub; it does not modify the dataset.
      let ds1 := if profileGet p "KeepPrivateTags" true then r.1
                 else remove_private_tags r.1
      let ds2 := if profileGet p "RetainStudyDate" true then ds1
                 else
                   let a := dsSetIfHas ds1 tagStudyDate cd
                   let b := dsSetIfHas a tagSeriesDate cd
                   dsSetIfHas b tagAcquisitionDate cd
      (ds2, r.2)
  | none => default_anonymization st cd ct ds

/-! ### Series filter (src/pixieveil/processing/series_filter.py) -/

/-- `SeriesFilter._is_original_series`: the stub returns `True`. -/
def is_original_series (_ds : Dataset) : Bool := true

/-- `SeriesFilter.should_filter`.  Reading `ds.Modality` on a dataset
without the attribute raises `AttributeError`, which the `except` arm
resolves to `False` (accept). -/
def should_filter (exclude_modalities : List String) (keep_original_series : Bool)
    (ds : Dataset) : Bool :=
  match dsGet ds tagModality with
  | none => false
  | some m =>
    if m ∈ exclude_modalities then true
    else if keep_original_series then
      if !(is_original_series ds) then true else false
    else false

/-! ### Uploader (src/pixieveil/storage/remote_storage.py) -/

/-- Outcome of the HTTP POST: `none` models an exception raised during
the request (transport error), `some s` a response with status `s`. -/
abbrev HttpOutcome := Option Nat

/-- `RemoteStorage.upload_file`.  Returns `none` ("disabled") when
`base_url` is falsy, `some true` ("ok") exactly on HTTP status 200, and
`some false` ("fail") on any other status or on an exception. -/
def upload_file (base_url : Option String) (resp : HttpOutcome) : Option Bool :=
  if base_url = none ∨ base_url = some "" then none
  else
    match resp with
    | none => some false
    | some s => some (s = 200)

/-! ### Storage manager (src/pixieveil/storage/storage_manager.py) -/

/-- `StudyState`: `last_received` timestamp and `completed` flag. -/
structure StudySt where
  last_received : Nat
  completed : Bool
deriving DecidableEq

/-- The hierarchical statistics counters, one field per leaf the claims
touch.  The float-valued `performance` timers are outside the model. -/
structure Counters where
  reception_studies : Nat := 0
  reception_images : Nat := 0
  reception_bytes : Nat := 0
  processing_studies : Nat := 0
  processing_images : Nat := 0
  anonymized_images : Nat := 0
  err_anonymization : Nat := 0
  err_validation : Nat := 0
  err_processing : Nat := 0
  storage_studies : Nat := 0
  storage_series : Nat := 0
  storage_images : Nat := 0
  archive_studies : Nat := 0
  archive_images : Nat := 0
  archive_errors : Nat := 0
  export_studies : Nat := 0
  export_images : Nat := 0
  export_errors : Nat := 0
  remote_studies : Nat := 0
  remote_images : Nat := 0
  remote_errors : Nat := 0
  remote_bytes : Nat := 0
  cleanup_studies : Nat := 0
  cleanup_images : Nat := 0
  errors_total : Nat := 0
deriving DecidableEq

/-- The storage manager's mutable state, together with an abstraction of
the filesystem it owns: `dirs` the study directories `NNNN/`,
`seriesDirs` the series directories `NNNN/SSSS/`, `files` the placed
images `NNNN/SSSS/IIII.dcm`, `zips` the archives `NNNN.zip`, and
`tempFiles` the in-flight `temp/<id>.dcm` files (4-digit names are
represented by their numeric value). -/
structure SM where
  study_states : List (String × StudySt)
  completed_count : Nat
  study_counter : Nat
  study_map : List (String × Nat)
  series_map : List ((String × String) × (Nat × Nat))
  image_counters : List ((Nat × Nat) × Nat)
  counters : Counters
  shuttingDown : Bool
  dirs : List Nat
  seriesDirs : List (Nat × Nat)
  files : List (Nat × Nat × Nat)
  zips : List Nat
  tempFiles : List String
deriving DecidableEq

/-- Boot scan of `StorageManager.__init__`: collect the existing
directory names that are exactly four digits and start the study counter
at their maximum, or at 0 when there are none. -/
def bootCounter (names : List String) : Nat :=
  let study_numbers := (names.filter (fun s => s.length = 4 && s.all Char.isDigit)).map
    (fun s => s.toNat?.getD 0)
  match study_numbers with
  | [] => 0
  | _ => study_numbers.foldl Nat.max 0

/-- Initial storage-manager state over an existing base directory whose
study directories are empty: all maps empty, counters zero, study
counter from the boot scan. -/
def initSM (names : List String) : SM :=
  { study_states := [], completed_count := 0,
    study_counter := bootCounter names,
    study_map := [], series_map := [], image_counters := [],
    counters := {}, shuttingDown := false,
    dirs := (names.filter (fun s => s.length = 4 && s.all Char.isDigit)).map
      (fun s => s.toNat?.getD 0),
    seriesDirs := [], files := [], zips := [], tempFiles := [] }

/-- `StorageManager._validate_dicom`: the three required UIDs must be
present. -/
def validate_dicom (ds : Dataset) : Bool :=
  dsHas ds tagStudyInstanceUID && dsHas ds tagSeriesInstanceUID && dsHas ds tagSOPInstanceUID

/-- `StorageManager.save_temp_image`: write `temp/<id>.dcm` and bump the
reception counters.  `nbytes` is the written file's size. -/
def save_temp_image (st : SM) (imageId : String) (nbytes : Nat) : SM :=
  { st with tempFiles := listInsert imageId st.tempFiles,
            counters := { st.counters with
              reception_images := st.counters.reception_images + 1,
              reception_bytes := st.counters.reception_bytes + nbytes } }

/-! The numbered phases of `StorageManager.process_image` (all executed
under the single `_lock` in the source), split out so each phase's state
footprint is visible. -/

/-- Study-number assignment: on first sight of the UID, bump
`study_counter` and record the mapping; otherwise return the recorded
number. -/
def assignStudyNumber (st : SM) (study_uid : String) : SM × Nat :=
  match lookupA study_uid st.study_map with
  | some n => (st, n)
  | none =>
    ({ st with study_counter := st.study_counter + 1,
               study_map := (study_uid, st.study_counter + 1) :: st.study_map },
     st.study_counter + 1)

/-- Series-number assignment: on first sight of the pair, scan the study
directory for existing series numbers (max+1, else 1; the storage
counters are bumped only when the study directory did not yet exist);
return the `(study_number, series_number)` recorded in `series_map`. -/
def assignSeriesNumber (st : SM) (study_uid series_uid : String)
    (study_number : Nat) : SM × (Nat × Nat) :=
  match lookupA (study_uid, series_uid) st.series_map with
  | some p => (st, p)
  | none =>
    if study_number ∈ st.dirs then
      let existing := (st.seriesDirs.filter (fun q => q.1 = study_number)).map
        (fun q => q.2)
      let sc := match existing with
        | [] => 1
        | _ => existing.foldl Nat.max 0 + 1
      ({ st with series_map :=
          ((study_uid, series_uid), (study_number, sc)) :: st.series_map },
       (study_number, sc))
    else
      ({ st with
          series_map := ((study_uid, series_uid), (study_number, 1)) :: st.series_map,
          counters := { st.counters with
            storage_studies := st.counters.storage_studies + 1,
            storage_series := st.counters.storage_series + 1 } },
       (study_number, 1))

/-- Image-number assignment: initialise the series counter at 0 when
absent, then increment and return it. -/
def nextImageNumber (st : SM) (key : Nat × Nat) : SM × Nat :=
  let c := (lookupA key st.image_counters).getD 0 + 1
  ({ st with image_counters := setA key c st.image_counters }, c)

/-- `mkdir(exist_ok=True)` on the study and series directories. -/
def mkdirPhase (st : SM) (snum sernum : Nat) : SM :=
  { st with dirs := listInsert snum st.dirs,
            seriesDirs := listInsert (snum, sernum) st.seriesDirs }

/-- Successful `shutil.move` plus the study-state creation/refresh and
the storage counters (`processing.studies` is assigned the map size). -/
def placeAndTrack (st : SM) (now : Nat) (imageId study_uid : String)
    (snum sernum image_number : Nat) : SM :=
  let st := { st with
      files := st.files ++ [(snum, sernum, image_number)],
      tempFiles := st.tempFiles.filter (fun f => f ≠ imageId) }
  let st :=
    match lookupA study_uid st.study_states with
    | none => { st with study_states := (study_uid, ⟨now, false⟩) :: st.study_states }
    | some s =>
      let s2 : StudySt := { s with last_received := now }
      { st with study_states := setA study_uid s2 st.study_states }
  { st with counters := { st.counters with
      storage_images := st.counters.storage_images + 1,
      processing_images := st.counters.processing_images + 1,
      processing_studies := st.study_map.length } }

/-- The tail of `process_image` after a successful anonymisation: the
three numbering phases under the lock, the directory creation, and the
move plus tracking (a failed move raises into the outer handler, which
increments the processing-error counters). -/
def numberAndPlace (st : SM) (now : Nat) (imageId study_uid series_uid : String)
    (moveOk : Bool) : SM :=
  let a := assignStudyNumber st study_uid
  let b := assignSeriesNumber a.1 study_uid series_uid a.2
  let c := nextImageNumber b.1 b.2
  let st := mkdirPhase c.1 b.2.1 b.2.2
  if !moveOk then
    { st with counters := { st.counters with
        err_processing := st.counters.err_processing + 1,
        errors_total := st.counters.errors_total + 1 } }
  else
    placeAndTrack st now imageId study_uid b.2.1 b.2.2 c.2

/-- `StorageManager.process_image`.  `now` is `time.time()`, `anonOk`
the outcome of the anonymise-and-save-back step, `moveOk` the outcome of
`shutil.move`. -/
def process_image (st : SM) (now : Nat) (imageId : String) (ds : Dataset)
    (anonOk moveOk : Bool) : SM :=
  if st.shuttingDown then st
  else if !(validate_dicom ds) then
    { st with counters := { st.counters with
        err_validation := st.counters.err_validation + 1,
        errors_total := st.counters.errors_total + 1 } }
  else
    let study_uid := (dsGet ds tagStudyInstanceUID).getD ""
    let series_uid := (dsGet ds tagSeriesInstanceUID).getD ""
    -- reception counter for first sight of the study
    let st := if lookupA study_uid st.study_map = none then
        { st with counters := { st.counters with
            reception_studies := st.counters.reception_studies + 1 } }
      else st
    if !anonOk then
      { st with counters := { st.counters with
          err_anonymization := st.counters.err_anonymization + 1,
          errors_total := st.counters.errors_total + 1 } }
    else
      let st := { st with counters := { st.counters with
          anonymized_images := st.counters.anonymized_images + 1 } }
      numberAndPlace st now imageId study_uid series_uid moveOk

/-- One iteration of the completion loop in
`StorageManager.check_study_completions`, processing one snapshot entry
against the live state.  `zipOk`, `upRes` and `zipSize` are the
per-study outcomes of ZIP creation, the upload and the archive's size.
Marking `completed := true` immediately precedes deleting the entry, so
the net map effect is the deletion. -/
def completionStep (now timeout : Nat) (zipOk : String → Bool)
    (upRes : String → Option Bool) (zipSize : String → Nat)
    (st : SM) (entry : String × StudySt) : SM :=
  let study_uid := entry.1
  let s := entry.2
  if s.completed = false ∧ timeout < now - s.last_received then
    match lookupA study_uid st.study_map with
    | none => st
    | some study_number =>
      if study_number = 0 then st   -- Python falsy test `if not study_number`
      else if study_number ∉ st.dirs then
        { st with counters := { st.counters with
            errors_total := st.counters.errors_total + 1 } }
      else
        let image_count := (st.files.filter (fun f => f.1 = study_number)).length
        let st := { st with counters := { st.counters with
            archive_studies := st.counters.archive_studies + 1,
            archive_images := st.counters.archive_images + image_count } }
        if !(zipOk study_uid) then
          { st with counters := { st.counters with
              archive_errors := st.counters.archive_errors + 1,
              errors_total := st.counters.errors_total + 1 } }
        else
          let st := { st with zips := listInsert study_number st.zips }
          let st := { st with counters := { st.counters with
              export_studies := st.counters.export_studies + 1,
              export_images := st.counters.export_images + image_count } }
          match upRes study_uid with
          | none =>
            -- remote storage not configured: keep local files
            if (lookupA study_uid st.study_states).isSome then
              { st with
                  study_states := eraseA study_uid st.study_states,
                  completed_count := st.completed_count + 1,
                  counters := { st.counters with
                    cleanup_studies := st.counters.cleanup_studies + 1,
                    cleanup_images := st.counters.cleanup_images + image_count } }
            else st
          | some true =>
            -- upload succeeded: purge directory tree and archive
            if (lookupA study_uid st.study_states).isSome then
              { st with
                  study_states := eraseA study_uid st.study_states,
                  completed_count := st.completed_count + 1,
                  counters := { st.counters with
                    remote_studies := st.counters.remote_studies + 1,
                    remote_images := st.counters.remote_images + image_count,
                    remote_bytes := st.counters.remote_bytes + zipSize study_uid,
                    cleanup_studies := st.counters.cleanup_studies + 1,
                    cleanup_images := st.counters.cleanup_images + image_count },
                  dirs := st.dirs.filter (fun d => d ≠ study_number),
                  seriesDirs := st.seriesDirs.filter (fun q => q.1 ≠ study_number),
                  files := st.files.filter (fun f => f.1 ≠ study_number),
                  zips := st.zips.filter (fun z => z ≠ study_number) }
            else st
          | some false =>
            -- upload failed: keep everything, retry on the next tick
            { st with counters := { st.counters with
                remote_errors := st.counters.remote_errors + 1,
                archive_errors := st.counters.archive_errors + 1,
                errors_total := st.counters.errors_total + 1 } }
  else st

/-- `StorageManager.check_study_completions`: snapshot the study states,
then run the per-study body over the snapshot while mutating the live
state. -/
def check_study_completions (st : SM) (now timeout : Nat) (zipOk : String → Bool)
    (upRes : String → Option Bool) (zipSize : String → Nat) : SM :=
  st.study_states.foldl (completionStep now timeout zipOk upRes zipSize) st

/-! ### C-STORE handler (src/pixieveil/dicom_server/handlers.py) -/

/-- `CStoreSCPHandler.handle_c_store`.  `info_ds` is the event's dataset
(`none` when the event carries no dataset), `encodeOk` the outcome of
serialising it to bytes, `saveOk` the outcome of the temp write; a raise
from either lands in the blanket `except`, which returns 0x0106. -/
def handle_c_store (st : SM) (info_ds : Option Dataset) (encodeOk saveOk : Bool)
    (nbytes : Nat) (now : Nat) (imageId : String) (anonOk moveOk : Bool) : Nat × SM :=
  match info_ds with
  | none => (0xC000, st)
  | some ds =>
    if !encodeOk then (0x0106, st)
    else if !saveOk then (0x0106, st)
    else
      let st := save_temp_image st imageId nbytes
      let st := process_image st now imageId ds anonOk moveOk
      (0x0000, st)

/-! ### Event traces -/

/-- The observable events driving the storage manager within one run. -/
inductive Ev where
  | saveTemp (imageId : String) (nbytes : Nat)
  | ingest (now : Nat) (imageId : String) (ds : Dataset) (anonOk moveOk : Bool)
  | tick (now timeout : Nat) (zipOk : String → Bool)
      (upRes : String → Option Bool) (zipSize : String → Nat)

def stepEv (st : SM) : Ev → SM
  | .saveTemp i n => save_temp_image st i n
  | .ingest now i ds a m => process_image st now i ds a m
  | .tick now timeout z u s => check_study_completions st now timeout z u s

def runEvents (st : SM) (evs : List Ev) : SM := evs.foldl stepEv st

/-! ### Run invariants -/

/-- Numbering invariant: the boot value never exceeds the counter, every
assigned study number lies strictly between the boot value and the
counter, and the UID → number map is injective. -/
def studyMapInv (c0 : Nat) (st : SM) : Prop :=
  c0 ≤ st.study_counter ∧
  (∀ u n, lookupA u st.study_map = some n → c0 < n ∧ n ≤ st.study_counter) ∧
  (∀ u1 u2 n, lookupA u1 st.study_map = some n →
    lookupA u2 st.study_map = some n → u1 = u2)

/-- Tracking invariant: every study with a `study_states` entry has a
nonzero number in `study_map`. -/
def statesSubMap (st : SM) : Prop :=
  ∀ u, (lookupA u st.study_states).isSome = true →
    ∃ n, lookupA u st.study_map = some n ∧ 0 < n

/-- Joint invariant preserved by every event of a run. -/
def SMInv (c0 : Nat) (st : SM) : Prop := studyMapInv c0 st ∧ statesSubMap st

/-! ### Concrete example inputs used by counterexamples and witnesses -/

/-- A minimal valid dataset: the three required UIDs. -/
def exDs : Dataset :=
  [(tagStudyInstanceUID, "S"), (tagSeriesInstanceUID, "R"), (tagSOPInstanceUID, "I")]

/-- A valid MR dataset (its modality is in the example exclude list). -/
def exDsMR : Dataset :=
  [(tagStudyInstanceUID, "S"), (tagSeriesInstanceUID, "R"), (tagSOPInstanceUID, "I"),
   (tagModality, "MR")]

/-- An invalid dataset: SOPInstanceUID missing. -/
def exDsInvalid : Dataset := [(tagStudyInstanceUID, "1"), (tagSeriesInstanceUID, "2")]

/-- A configured profile touching a single tag. -/
def exProfile : Profile := [("PatientSex", PVal.str "ANONYMOUS")]

/-- A dataset with patient identity, an overlay-group element
(0x6000,0x3000), a private element (group 0x0009), a sensitive tag, and
a burned-in flag. -/
def exDsFull : Dataset :=
  [(tagPatientName, "John Doe"), (tagPatientSex, "M"), (0x60003000, "ovl"),
   (0x00090010, "priv"), (tagMilitaryRank, "COL"), (tagBurnedIn, "YES"),
   (tagStudyInstanceUID, "1.2"), (tagSeriesInstanceUID, "1.3")]

/-- Ingest of study S, then a tick that uploads and purges it, then a
re-ingest of the same original StudyInstanceUID. -/
def exPurgeTrace : List Ev :=
  [Ev.ingest 0 "a" exDs true true,
   Ev.tick 1000 10 (fun _ => true) (fun _ => some true) (fun _ => 5),
   Ev.ingest 2000 "b" exDs true true]

/-- A storage-manager state holding one placed study, ready for the
completion tracker. -/
def exStW : SM :=
  { study_states := [("S", ⟨0, false⟩)], completed_count := 0, study_counter := 1,
    study_map := [("S", 1)], series_map := [(("S", "R"), (1, 1))],
    image_counters := [((1, 1), 1)], counters := {}, shuttingDown := false,
    dirs := [1], seriesDirs := [(1, 1)], files := [(1, 1, 1)], zips := [],
    tempFiles := [] }

/-! ### Helper lemmas -/

theorem lookupA_setA_self {α β : Type} [DecidableEq α] (k : α) (v : β) (l : List (α × β)) :
    lookupA k (setA k v l) = some v := by
  induction l with
  | nil => simp [setA, lookupA]
  | cons h t ih =>
    by_cases hk : h.1 = k
    · simp [setA, hk, lookupA]
    · simp [setA, hk, lookupA, ih]

theorem lookupA_setA_ne {α β : Type} [DecidableEq α] {k k' : α} (v : β) (l : List (α × β))
    (h : k' ≠ k) : lookupA k (setA k' v l) = lookupA k l := by
  induction l with
  | nil => simp [setA, lookupA, h]
  | cons hd t ih =>
    by_cases hk : hd.1 = k'
    · simp [setA, hk, lookupA, h]
    · simp [setA, hk, lookupA, ih]

theorem lookupA_eraseA_self {α β : Type} [DecidableEq α] (k : α) (l : List (α × β)) :
    lookupA k (eraseA k l) = none := by
  induction l with
  | nil => simp [eraseA, lookupA]
  | cons hd t ih =>
    by_cases hk : hd.1 = k
    · simpa [eraseA, hk] using ih
    · simpa [eraseA, hk, lookupA] using ih

theorem lookupA_eraseA_ne {α β : Type} [DecidableEq α] {k k' : α} (l : List (α × β))
    (h : k ≠ k') : lookupA k (eraseA k' l) = lookupA k l := by
  induction l with
  | nil => simp [eraseA, lookupA]
  | cons hd t ih =>
    by_cases hk : hd.1 = k'
    · have hne : ¬ hd.1 = k := by
        intro hc; exact h (hc ▸ hk)
      simp only [eraseA, List.filter_cons, hk] at ih ⊢
      simp only [ne_eq, not_true_eq_false, decide_False, Bool.false_eq_true, if_false]
      simpa [lookupA, hne] using ih
    · simp only [eraseA, List.filter_cons] at ih ⊢
      rw [if_pos (by simp [hk])]
      by_cases hk2 : hd.1 = k
      · simp [lookupA, hk2]
      · simpa [lookupA, hk2] using ih

theorem lookupA_append_some {α β : Type} [DecidableEq α] {k : α} {v : β}
    {l₁ : List (α × β)} (l₂ : List (α × β)) (h : lookupA k l₁ = some v) :
    lookupA k (l₁ ++ l₂) = some v := by
  induction l₁ with
  | nil => simp [lookupA] at h
  | cons hd t ih =>
    by_cases hk : hd.1 = k
    · simp [lookupA, hk] at h ⊢; exact h
    · simp [lookupA, hk] at h ⊢; exact ih h

theorem lookupA_append_none {α β : Type} [DecidableEq α] {k : α}
    {l₁ : List (α × β)} (l₂ : List (α × β)) (h : lookupA k l₁ = none) :
    lookupA k (l₁ ++ l₂) = lookupA k l₂ := by
  induction l₁ with
  | nil => simp
  | cons hd t ih =>
    by_cases hk : hd.1 = k
    · simp [lookupA, hk] at h
    · simp [lookupA, hk] at h ⊢; exact ih h

theorem dsGet_dsSet_self (ds : Dataset) (t : Tag) (v : String) :
    dsGet (dsSet ds t v) t = some v := lookupA_setA_self t v ds

theorem dsGet_dsSet_ne (ds : Dataset) {t t' : Tag} (v : String) (h : t ≠ t') :
    dsGet (dsSet ds t v) t' = dsGet ds t' := lookupA_setA_ne v ds h

theorem dsGet_dsErase_self (ds : Dataset) (t : Tag) :
    dsGet (dsErase ds t) t = none := lookupA_eraseA_self t ds

theorem dsGet_dsErase_ne (ds : Dataset) {t t' : Tag} (h : t' ≠ t) :
    dsGet (dsErase ds t) t' = dsGet ds t' := lookupA_eraseA_ne ds h

theorem dsGet_dsSetIfHas_ne (ds : Dataset) {t t' : Tag} (v : String) (h : t ≠ t') :
    dsGet (dsSetIfHas ds t v) t' = dsGet ds t' := by
  unfold dsSetIfHas
  split
  · exact dsGet_dsSet_ne ds v h
  · rfl

theorem dsHas_dsSet_ne (ds : Dataset) {t t' : Tag} (v : String) (h : t ≠ t') :
    dsHas (dsSet ds t v) t' = dsHas ds t' := by
  unfold dsHas; rw [dsGet_dsSet_ne ds v h]

theorem dsHas_dsSetIfHas_ne (ds : Dataset) {t t' : Tag} (v : String) (h : t ≠ t') :
    dsHas (dsSetIfHas ds t v) t' = dsHas ds t' := by
  unfold dsHas; rw [dsGet_dsSetIfHas_ne ds v h]

theorem lookupA_cons_self {α β : Type} [DecidableEq α] (k : α) (v : β) (l : List (α × β)) :
    lookupA k ((k, v) :: l) = some v := by simp [lookupA]

theorem lookupA_cons_ne {α β : Type} [DecidableEq α] {k k' : α} (v : β) (l : List (α × β))
    (h : k' ≠ k) : lookupA k ((k', v) :: l) = lookupA k l := by simp [lookupA, h]

theorem lookupA_setA_isSome {α β : Type} [DecidableEq α] (k k' : α) (v : β)
    (l : List (α × β)) :
    (lookupA k (setA k' v l)).isSome = true →
      k = k' ∨ (lookupA k l).isSome = true := by
  intro h
  by_cases hk : k = k'
  · exact Or.inl hk
  · right
    rw [lookupA_setA_ne v l (fun hc => hk hc.symm)] at h
    exact h

theorem lookupA_eraseA_isSome {α β : Type} [DecidableEq α] (k k' : α) (l : List (α × β)) :
    (lookupA k (eraseA k' l)).isSome = true → (lookupA k l).isSome = true := by
  intro h
  by_cases hk : k = k'
  · rw [hk, lookupA_eraseA_self] at h; simp at h
  · rwa [lookupA_eraseA_ne l hk] at h

/-! Projection lemmas for the `process_image` phases. -/

theorem assignStudyNumber_proj (st : SM) (u : String) :
    (assignStudyNumber st u).1.study_states = st.study_states ∧
    (assignStudyNumber st u).1.files = st.files ∧
    (assignStudyNumber st u).1.tempFiles = st.tempFiles ∧
    (assignStudyNumber st u).1.dirs = st.dirs ∧
    (assignStudyNumber st u).1.shuttingDown = st.shuttingDown := by
  unfold assignStudyNumber
  split <;> exact ⟨rfl, rfl, rfl, rfl, rfl⟩

theorem assignStudyNumber_map_cases (st : SM) (u : String) :
    ((assignStudyNumber st u).1.study_map = st.study_map ∧
     (assignStudyNumber st u).1.study_counter = st.study_counter ∧
     lookupA u st.study_map = some (assignStudyNumber st u).2) ∨
    (lookupA u st.study_map = none ∧
     (assignStudyNumber st u).1.study_map = (u, st.study_counter + 1) :: st.study_map ∧
     (assignStudyNumber st u).1.study_counter = st.study_counter + 1 ∧
     (assignStudyNumber st u).2 = st.study_counter + 1) := by
  unfold assignStudyNumber
  cases h : lookupA u st.study_map with
  | none => exact Or.inr ⟨rfl, rfl, rfl, rfl⟩
  | some n => exact Or.inl ⟨rfl, rfl, rfl⟩

theorem assignStudyNumber_lookup_self (st : SM) (u : String) :
    lookupA u (assignStudyNumber st u).1.study_map = some (assignStudyNumber st u).2 := by
  unfold assignStudyNumber
  cases h : lookupA u st.study_map with
  | none => simp [lookupA_cons_self]
  | some n => simpa using h

theorem assignSeriesNumber_proj (st : SM) (u su : String) (n : Nat) :
    (assignSeriesNumber st u su n).1.study_map = st.study_map ∧
    (assignSeriesNumber st u su n).1.study_counter = st.study_counter ∧
    (assignSeriesNumber st u su n).1.study_states = st.study_states ∧
    (assignSeriesNumber st u su n).1.files = st.files ∧
    (assignSeriesNumber st u su n).1.tempFiles = st.tempFiles := by
  unfold assignSeriesNumber
  split
  · exact ⟨rfl, rfl, rfl, rfl, rfl⟩
  · split <;> exact ⟨rfl, rfl, rfl, rfl, rfl⟩

theorem nextImageNumber_proj (st : SM) (k : Nat × Nat) :
    (nextImageNumber st k).1.study_map = st.study_map ∧
    (nextImageNumber st k).1.study_counter = st.study_counter ∧
    (nextImageNumber st k).1.study_states = st.study_states ∧
    (nextImageNumber st k).1.files = st.files ∧
    (nextImageNumber st k).1.tempFiles = st.tempFiles := ⟨rfl, rfl, rfl, rfl, rfl⟩

theorem mkdirPhase_proj (st : SM) (a b : Nat) :
    (mkdirPhase st a b).study_map = st.study_map ∧
    (mkdirPhase st a b).study_counter = st.study_counter ∧
    (mkdirPhase st a b).study_states = st.study_states ∧
    (mkdirPhase st a b).files = st.files ∧
    (mkdirPhase st a b).tempFiles = st.tempFiles := ⟨rfl, rfl, rfl, rfl, rfl⟩

theorem placeAndTrack_proj (st : SM) (now : Nat) (id u : String) (a b c : Nat) :
    (placeAndTrack st now id u a b c).study_map = st.study_map ∧
    (placeAndTrack st now id u a b c).study_counter = st.study_counter ∧
    (placeAndTrack st now id u a b c).files = st.files ++ [(a, b, c)] := by
  unfold placeAndTrack
  dsimp only
  cases lookupA u st.study_states <;> exact ⟨rfl, rfl, rfl⟩

theorem placeAndTrack_states_cases (st : SM) (now : Nat) (id u : String) (a b c : Nat) :
    (lookupA u st.study_states = none ∧
     (placeAndTrack st now id u a b c).study_states =
       (u, (⟨now, false⟩ : StudySt)) :: st.study_states) ∨
    (∃ s, lookupA u st.study_states = some s ∧
     (placeAndTrack st now id u a b c).study_states =
       setA u (⟨now, s.completed⟩ : StudySt) st.study_states) := by
  unfold placeAndTrack
  dsimp only
  cases h : lookupA u st.study_states with
  | none => exact Or.inl ⟨rfl, rfl⟩
  | some s => exact Or.inr ⟨s, rfl, rfl⟩

theorem placeAndTrack_lookup_self (st : SM) (now : Nat) (id u : String) (a b c : Nat) :
    (lookupA u (placeAndTrack st now id u a b c).study_states).isSome = true := by
  rcases placeAndTrack_states_cases st now id u a b c with ⟨_, h⟩ | ⟨s, _, h⟩
  · rw [h, lookupA_cons_self]; rfl
  · rw [h, lookupA_setA_self]; rfl
theorem assignStudyNumber_states (st : SM) (u : String) :
    (assignStudyNumber st u).1.study_states = st.study_states :=
  (assignStudyNumber_proj st u).1

theorem assignStudyNumber_files (st : SM) (u : String) :
    (assignStudyNumber st u).1.files = st.files :=
  (assignStudyNumber_proj st u).2.1

theorem assignSeriesNumber_map (st : SM) (u su : String) (n : Nat) :
    (assignSeriesNumber st u su n).1.study_map = st.study_map :=
  (assignSeriesNumber_proj st u su n).1

theorem assignSeriesNumber_counter (st : SM) (u su : String) (n : Nat) :
    (assignSeriesNumber st u su n).1.study_counter = st.study_counter :=
  (assignSeriesNumber_proj st u su n).2.1

theorem assignSeriesNumber_states (st : SM) (u su : String) (n : Nat) :
    (assignSeriesNumber st u su n).1.study_states = st.study_states :=
  (assignSeriesNumber_proj st u su n).2.2.1

theorem assignSeriesNumber_files (st : SM) (u su : String) (n : Nat) :
    (assignSeriesNumber st u su n).1.files = st.files :=
  (assignSeriesNumber_proj st u su n).2.2.2.1

theorem nextImageNumber_map (st : SM) (k : Nat × Nat) :
    (nextImageNumber st k).1.study_map = st.study_map := rfl

theorem nextImageNumber_counter (st : SM) (k : Nat × Nat) :
    (nextImageNumber st k).1.study_counter = st.study_counter := rfl

theorem nextImageNumber_states (st : SM) (k : Nat × Nat) :
    (nextImageNumber st k).1.study_states = st.study_states := rfl

theorem nextImageNumber_files (st : SM) (k : Nat × Nat) :
    (nextImageNumber st k).1.files = st.files := rfl

theorem mkdirPhase_map (st : SM) (a b : Nat) :
    (mkdirPhase st a b).study_map = st.study_map := rfl

theorem mkdirPhase_counter (st : SM) (a b : Nat) :
    (mkdirPhase st a b).study_counter = st.study_counter := rfl

theorem mkdirPhase_states (st : SM) (a b : Nat) :
    (mkdirPhase st a b).study_states = st.study_states := rfl

theorem mkdirPhase_files (st : SM) (a b : Nat) :
    (mkdirPhase st a b).files = st.files := rfl

theorem placeAndTrack_map (st : SM) (now : Nat) (id u : String) (a b c : Nat) :
    (placeAndTrack st now id u a b c).study_map = st.study_map :=
  (placeAndTrack_proj st now id u a b c).1

theorem placeAndTrack_counter (st : SM) (now : Nat) (id u : String) (a b c : Nat) :
    (placeAndTrack st now id u a b c).study_counter = st.study_counter :=
  (placeAndTrack_proj st now id u a b c).2.1

theorem placeAndTrack_files (st : SM) (now : Nat) (id u : String) (a b c : Nat) :
    (placeAndTrack st now id u a b c).files = st.files ++ [(a, b, c)] :=
  (placeAndTrack_proj st now id u a b c).2.2

theorem assignStudyNumber_map_mono (st : SM) (uid : String) {u : String} {n : Nat}
    (h : lookupA u st.study_map = some n) :
    lookupA u (assignStudyNumber st uid).1.study_map = some n := by
  unfold assignStudyNumber
  cases hl : lookupA uid st.study_map with
  | some k => simpa using h
  | none =>
    have hne : uid ≠ u := by
      intro he
      rw [he, h] at hl
      cases hl
    show lookupA u ((uid, st.study_counter + 1) :: st.study_map) = some n
    rw [lookupA_cons_ne _ _ hne]
    exact h

theorem numberAndPlace_map_mono (st : SM) (now : Nat) (id uid suid : String)
    (mo : Bool) {u : String} {n : Nat} (h : lookupA u st.study_map = some n) :
    lookupA u (numberAndPlace st now id uid suid mo).study_map = some n := by
  unfold numberAndPlace
  dsimp only
  split
  · simp only [mkdirPhase_map, nextImageNumber_map, assignSeriesNumber_map]
    exact assignStudyNumber_map_mono _ _ h
  · simp only [placeAndTrack_map, mkdirPhase_map, nextImageNumber_map,
      assignSeriesNumber_map]
    exact assignStudyNumber_map_mono _ _ h

/-- Any study UID already bound in `study_map` keeps its binding across
`process_image`: the map is never reassigned or cleaned. -/
theorem process_image_map_mono (st : SM) (now : Nat) (id : String) (ds : Dataset)
    (ao mo : Bool) {u : String} {n : Nat} (h : lookupA u st.study_map = some n) :
    lookupA u (process_image st now id ds ao mo).study_map = some n := by
  unfold process_image
  dsimp only
  split
  · exact h
  split
  · exact h
  by_cases hrec : lookupA ((dsGet ds tagStudyInstanceUID).getD "") st.study_map = none
  · rw [if_pos hrec]
    split
    · exact h
    · exact numberAndPlace_map_mono _ _ _ _ _ _ h
  · rw [if_neg hrec]
    split
    · exact h
    · exact numberAndPlace_map_mono _ _ _ _ _ _ h

/-- A fully successful `process_image` run on a valid dataset appends
exactly one file to the layout and leaves a `study_states` entry for the
dataset's original StudyInstanceUID. -/
theorem numberAndPlace_success (st : SM) (now : Nat) (id uid suid : String) :
    (numberAndPlace st now id uid suid true).files.length = st.files.length + 1 ∧
    (lookupA uid (numberAndPlace st now id uid suid true).study_states).isSome
      = true := by
  unfold numberAndPlace
  simp only [Bool.not_true, Bool.false_eq_true, if_false]
  constructor
  · rw [placeAndTrack_files]
    simp [mkdirPhase_files, nextImageNumber_files, assignSeriesNumber_files,
      assignStudyNumber_files]
  · apply placeAndTrack_lookup_self

theorem process_image_success_effects (st : SM) (now : Nat) (id : String) (ds : Dataset)
    (h1 : st.shuttingDown = false) (h2 : validate_dicom ds = true) :
    (process_image st now id ds true true).files.length = st.files.length + 1 ∧
    (lookupA ((dsGet ds tagStudyInstanceUID).getD "")
      (process_image st now id ds true true).study_states).isSome = true := by
  unfold process_image
  simp only [h1, h2, Bool.not_true, Bool.false_eq_true, if_false]
  split
  · exact numberAndPlace_success _ now id _ _
  · exact numberAndPlace_success _ now id _ _

theorem completionStep_map_counter (now timeout : Nat) (zipOk : String → Bool)
    (upRes : String → Option Bool) (zipSize : String → Nat) (st : SM)
    (e : String × StudySt) :
    (completionStep now timeout zipOk upRes zipSize st e).study_map = st.study_map ∧
    (completionStep now timeout zipOk upRes zipSize st e).study_counter = st.study_counter := by
  unfold completionStep
  dsimp only
  repeat' split
  all_goals exact ⟨rfl, rfl⟩

theorem completionStep_states_cases (now timeout : Nat) (zipOk : String → Bool)
    (upRes : String → Option Bool) (zipSize : String → Nat) (st : SM)
    (e : String × StudySt) :
    (completionStep now timeout zipOk upRes zipSize st e).study_states = st.study_states ∨
    (completionStep now timeout zipOk upRes zipSize st e).study_states =
      eraseA e.1 st.study_states := by
  unfold completionStep
  dsimp only
  repeat' split
  all_goals first | exact Or.inl rfl | exact Or.inr rfl

theorem check_study_completions_map (st : SM) (now timeout : Nat)
    (zipOk : String → Bool) (upRes : String → Option Bool) (zipSize : String → Nat) :
    (check_study_completions st now timeout zipOk upRes zipSize).study_map =
      st.study_map := by
  unfold check_study_completions
  generalize st.study_states = snapshot
  induction snapshot generalizing st with
  | nil => rfl
  | cons e t ih =>
    rw [List.foldl_cons, ih, (completionStep_map_counter _ _ _ _ _ _ _).1]

/-! ### Claims -/

/-- C3 (confirmed): when the completion tracker processes a quiescent
study (not completed, `now - last_received > completion_timeout`, with a
study number, an existing directory and a successfully created ZIP):
if the uploader reports disabled, the study is completed
(`completed_count` incremented, `study_states` entry removed) and the
local directory and archive are kept; if the upload succeeds, the study
is completed, the directory tree and the archive are deleted and the
`remote_storage` study/image/byte counters are updated; if the upload
fails, `remote_storage.errors`, `archive.errors` and `errors.total` are
incremented, nothing is deleted, the study is not marked completed and
its entry is retained for the next tick. -/
theorem C3_completion_outcomes (now timeout : Nat) (zipOk : String → Bool)
    (upRes : String → Option Bool) (zipSize : String → Nat) (st : SM)
    (uid : String) (s : StudySt) (n : Nat)
    (hs : lookupA uid st.study_states = some s)
    (hc : s.completed = false)
    (hq : timeout < now - s.last_received)
    (hm : lookupA uid st.study_map = some n)
    (hn : ¬ n = 0)
    (hd : n ∈ st.dirs)
    (hz : zipOk uid = true) :
    (upRes uid = none →
      (completionStep now timeout zipOk upRes zipSize st (uid, s)).study_states =
        eraseA uid st.study_states ∧
      (completionStep now timeout zipOk upRes zipSize st (uid, s)).completed_count =
        st.completed_count + 1 ∧
      (completionStep now timeout zipOk upRes zipSize st (uid, s)).dirs = st.dirs ∧
      (completionStep now timeout zipOk upRes zipSize st (uid, s)).files = st.files ∧
      (completionStep now timeout zipOk upRes zipSize st (uid, s)).zips =
        listInsert n st.zips) ∧
    (upRes uid = some true →
      (completionStep now timeout zipOk upRes zipSize st (uid, s)).study_states =
        eraseA uid st.study_states ∧
      (completionStep now timeout zipOk upRes zipSize st (uid, s)).completed_count =
        st.completed_count + 1 ∧
      (completionStep now timeout zipOk upRes zipSize st (uid, s)).dirs =
        st.dirs.filter (fun d => d ≠ n) ∧
      (completionStep now timeout zipOk upRes zipSize st (uid, s)).files =
        st.files.filter (fun f => f.1 ≠ n) ∧
      (completionStep now timeout zipOk upRes zipSize st (uid, s)).zips =
        (listInsert n st.zips).filter (fun z => z ≠ n) ∧
      (completionStep now timeout zipOk upRes zipSize st (uid, s)).counters.remote_studies =
        st.counters.remote_studies + 1 ∧
      (completionStep now timeout zipOk upRes zipSize st (uid, s)).counters.remote_images =
        st.counters.remote_images + (st.files.filter (fun f => f.1 = n)).length ∧
      (completionStep now timeout zipOk upRes zipSize st (uid, s)).counters.remote_bytes =
        st.counters.remote_bytes + zipSize uid) ∧
    (upRes uid = some false →
      (completionStep now timeout zipOk upRes zipSize st (uid, s)).study_states =
        st.study_states ∧
      (completionStep now timeout zipOk upRes zipSize st (uid, s)).completed_count =
        st.completed_count ∧
      (completionStep now timeout zipOk upRes zipSize st (uid, s)).dirs = st.dirs ∧
      (completionStep now timeout zipOk upRes zipSize st (uid, s)).files = st.files ∧
      (completionStep now timeout zipOk upRes zipSize st (uid, s)).zips =
        listInsert n st.zips ∧
      (completionStep now timeout zipOk upRes zipSize st (uid, s)).counters.remote_errors =
        st.counters.remote_errors + 1 ∧
      (completionStep now timeout zipOk upRes zipSize st (uid, s)).counters.archive_errors =
        st.counters.archive_errors + 1 ∧
      (completionStep now timeout zipOk upRes zipSize st (uid, s)).counters.errors_total =
        st.counters.errors_total + 1) := by
  unfold completionStep
  try dsimp only
  rw [if_pos ⟨hc, hq⟩, hm]
  try dsimp only
  rw [if_neg hn, if_neg (by simpa using hd), hz]
  try dsimp only
  refine ⟨fun hu => ?_, fun hu => ?_, fun hu => ?_⟩ <;> rw [hu] <;>
    simp [hs, listInsert]

/-- Closed instance of C3: the disabled case on a one-study state. -/
theorem C3_witness :
    (completionStep 200 100 (fun _ => true) (fun _ => none) (fun _ => 5) exStW
      ("S", (⟨0, false⟩ : StudySt))).study_states = eraseA "S" exStW.study_states ∧
    (completionStep 200 100 (fun _ => true) (fun _ => none) (fun _ => 5) exStW
      ("S", (⟨0, false⟩ : StudySt))).completed_count = exStW.completed_count + 1 ∧
    (completionStep 200 100 (fun _ => true) (fun _ => none) (fun _ => 5) exStW
      ("S", (⟨0, false⟩ : StudySt))).dirs = exStW.dirs := by
  have h := (C3_completion_outcomes 200 100 (fun _ => true) (fun _ => none)
    (fun _ => 5) exStW "S" ⟨0, false⟩ 1 (by decide) rfl (by decide) (by decide)
    (by decide) (by decide) rfl).1 rfl
  exact ⟨h.1, h.2.1, h.2.2.1⟩

/-- C5 (corrected, counterexample): a dataset whose Modality is in the
configured `exclude_modalities` list — `should_filter` returns true for
it — is nevertheless fully processed by `process_image`: a study number
is allocated and the image is placed into the layout. -/
theorem C5_counterexample :
    should_filter ["MR"] true exDsMR = true ∧
    (process_image (initSM []) 10 "t1" exDsMR true true).files = [(1, 1, 1)] ∧
    lookupA "S" (process_image (initSM []) 10 "t1" exDsMR true true).study_map =
      some 1 ∧
    (lookupA "S" (process_image (initSM []) 10 "t1" exDsMR true true).study_states)
      = some ⟨10, false⟩ := by decide

/-- C5 (amended): `StorageManager.process_image` never consults the
series filter; a dataset the filter would drop (excluded Modality) is
processed exactly like any other — on a successful run it is numbered,
placed into the layout (one file added) and tracked in `study_states`. -/
theorem C5_amended (exclude : List String) (keep : Bool) (st : SM) (now : Nat)
    (id : String) (ds : Dataset)
    (hf : should_filter exclude keep ds = true)
    (h1 : st.shuttingDown = false) (h2 : validate_dicom ds = true) :
    (process_image st now id ds true true).files.length = st.files.length + 1 ∧
    (lookupA ((dsGet ds tagStudyInstanceUID).getD "")
      (process_image st now id ds true true).study_states).isSome = true :=
  process_image_success_effects st now id ds h1 h2

/-- Closed instance of C5's amended claim at an excluded-modality input. -/
theorem C5_witness :
    should_filter ["MR"] true exDsMR = true ∧
    (process_image (initSM []) 10 "t1" exDsMR true true).files.length =
      (initSM []).files.length + 1 :=
  ⟨by decide,
   (C5_amended ["MR"] true (initSM []) 10 "t1" exDsMR (by decide) rfl (by decide)).1⟩

/-- C6 (corrected, counterexample): a C-STORE event that carries a
dataset but whose serialisation to a byte stream fails returns 0x0106
(the blanket `except` arm), not the 0xC000 the claim requires. -/
theorem C6_counterexample :
    (handle_c_store (initSM []) (some exDs) false true 0 0 "a" true true).1 =
      0x0106 ∧ (0x0106 : Nat) ≠ 0xC000 := by decide

/-- C6 (amended): `handle_c_store` returns 0xC000 exactly when the event
carries no dataset; a serialisation failure, a temp-write failure or any
other raised error yields 0x0106; when the dataset is present and both
steps succeed it saves the temp image, processes it and returns 0x0000. -/
theorem C6_amended (st : SM) (ds : Dataset) (s : Bool) (nb now : Nat) (id : String)
    (ao mo : Bool) :
    (∀ e s', (handle_c_store st none e s' nb now id ao mo).1 = 0xC000) ∧
    (handle_c_store st (some ds) false s nb now id ao mo).1 = 0x0106 ∧
    (handle_c_store st (some ds) true false nb now id ao mo).1 = 0x0106 ∧
    handle_c_store st (some ds) true true nb now id ao mo =
      (0x0000, process_image (save_temp_image st id nb) now id ds ao mo) :=
  ⟨fun _ _ => rfl, rfl, rfl, rfl⟩

/-- C7 (corrected, counterexample): on a validation failure the temp
file is not removed — it is still present afterwards, while the
validation error counter was incremented and no study state exists. -/
theorem C7_counterexample :
    (process_image { initSM [] with tempFiles := ["t1"] } 5 "t1" exDsInvalid
      true true).tempFiles = ["t1"] ∧
    (process_image { initSM [] with tempFiles := ["t1"] } 5 "t1" exDsInvalid
      true true).counters.err_validation = 1 ∧
    (process_image { initSM [] with tempFiles := ["t1"] } 5 "t1" exDsInvalid
      true true).study_states = [] := by decide

/-- C7 (amended): for a dataset failing validation (a missing required
UID), `process_image` increments `processing.errors.validation` by
exactly one (and `errors.total`), creates no study state, allocates
nothing, returns without raising — and leaves the temp file in place:
the whole post-state is the pre-state with just those two counters
bumped. -/
theorem C7_amended (st : SM) (now : Nat) (id : String) (ds : Dataset) (ao mo : Bool)
    (h1 : st.shuttingDown = false) (h2 : validate_dicom ds = false) :
    process_image st now id ds ao mo =
      { st with counters := { st.counters with
          err_validation := st.counters.err_validation + 1,
          errors_total := st.counters.errors_total + 1 } } := by
  unfold process_image
  simp [h1, h2]

/-- Closed instance of C7's amended claim. -/
theorem C7_witness :
    validate_dicom exDsInvalid = false ∧
    process_image { initSM [] with tempFiles := ["t1"] } 5 "t1" exDsInvalid true true =
      { ({ initSM [] with tempFiles := ["t1"] } : SM) with
          counters := { ({ initSM [] with tempFiles := ["t1"] } : SM).counters with
            err_validation := 1, errors_total := 1 } } := by
  constructor
  · decide
  · have h := C7_amended { initSM [] with tempFiles := ["t1"] } 5 "t1" exDsInvalid
      true true rfl (by decide)
    simpa using h

/-- C8 (corrected, counterexample): with a configured base URL, an HTTP
201 response — a 2xx status — is reported as a failure, because the
uploader tests for status == 200 only. -/
theorem C8_counterexample :
    upload_file (some "http://s") (some 201) = some false ∧
    200 ≤ 201 ∧ 201 < 300 := by decide

/-- C8 (amended): the uploader returns disabled exactly when `base_url`
is absent or empty; when configured, it returns ok exactly on HTTP
status 200, and fail on any other status or a transport error. -/
theorem C8_amended (base_url : Option String) (resp : HttpOutcome) :
    (upload_file base_url resp = none ↔ (base_url = none ∨ base_url = some "")) ∧
    (¬(base_url = none ∨ base_url = some "") →
      ((upload_file base_url resp = some true ↔ resp = some 200) ∧
       (upload_file base_url resp = some false ↔ ¬ resp = some 200))) := by
  unfold upload_file
  by_cases h : base_url = none ∨ base_url = some ""
  · simp [h]
  · rw [if_neg h]
    refine ⟨?_, fun _ => ?_⟩
    · cases resp <;> simp [h]
    · cases resp with
      | none => simp
      | some code =>
        by_cases hc : code = 200 <;> simp [hc]

/-- Closed instance of C8's amended claim: configured URL, HTTP 200. -/
theorem C8_witness :
    ¬((some "http://s" : Option String) = none ∨
      (some "http://s" : Option String) = some "") ∧
    upload_file (some "http://s") (some 200) = some true := by
  constructor
  · decide
  · exact ((C8_amended (some "http://s") (some 200)).2 (by decide)).1.mpr rfl

/-! ### Invariant preservation -/

theorem lookupA_cons_cases {α β : Type} [DecidableEq α] {k k' : α} {v : β}
    {l : List (α × β)} {r : β} (h : lookupA k ((k', v) :: l) = some r) :
    (k' = k ∧ v = r) ∨ (k' ≠ k ∧ lookupA k l = some r) := by
  by_cases hk : k' = k
  · left
    refine ⟨hk, ?_⟩
    have := h
    simp [lookupA, hk] at this
    exact this
  · right
    exact ⟨hk, by simpa [lookupA, hk] using h⟩

theorem lookupA_cons_isSome {α β : Type} [DecidableEq α] {k k' : α} {v : β}
    {l : List (α × β)} (h : (lookupA k ((k', v) :: l)).isSome = true) :
    k = k' ∨ (lookupA k l).isSome = true := by
  by_cases hk : k' = k
  · exact Or.inl hk.symm
  · right
    simpa [lookupA, hk] using h

theorem studyMapInv_transport {c0 : Nat} {s t : SM} (hm : t.study_map = s.study_map)
    (hc : t.study_counter = s.study_counter) (h : studyMapInv c0 s) :
    studyMapInv c0 t := by
  unfold studyMapInv at h ⊢
  rw [hm, hc]
  exact h

theorem statesSubMap_transport {s t : SM} (hs : t.study_states = s.study_states)
    (hm : t.study_map = s.study_map) (h : statesSubMap s) : statesSubMap t := by
  unfold statesSubMap at h ⊢
  rw [hs, hm]
  exact h

theorem statesSubMap_extend {s : SM} (h : statesSubMap s) (t : SM)
    (hs : t.study_states = s.study_states)
    (hmono : ∀ u n, lookupA u s.study_map = some n → lookupA u t.study_map = some n) :
    statesSubMap t := by
  intro u hu
  rw [hs] at hu
  obtain ⟨n, hn, hp⟩ := h u hu
  exact ⟨n, hmono u n hn, hp⟩

theorem assignStudyNumber_inv {c0 : Nat} {st : SM} (u : String)
    (h : studyMapInv c0 st) :
    studyMapInv c0 (assignStudyNumber st u).1 ∧ c0 < (assignStudyNumber st u).2 := by
  obtain ⟨hc, hb, hinj⟩ := h
  unfold assignStudyNumber
  cases hl : lookupA u st.study_map with
  | some n =>
    exact ⟨⟨hc, hb, hinj⟩, (hb u n hl).1⟩
  | none =>
    dsimp only
    refine ⟨⟨Nat.le_succ_of_le hc, ?_, ?_⟩, Nat.lt_succ_of_le hc⟩
    · intro u' n' hn'
      rcases lookupA_cons_cases hn' with ⟨_, hv⟩ | ⟨_, hold⟩
      · rw [← hv]
        exact ⟨Nat.lt_succ_of_le hc, Nat.le_refl _⟩
      · obtain ⟨h1, h2⟩ := hb u' n' hold
        exact ⟨h1, Nat.le_succ_of_le h2⟩
    · intro u1 u2 n' h1 h2
      rcases lookupA_cons_cases h1 with ⟨he1, hv1⟩ | ⟨hne1, hold1⟩ <;>
        rcases lookupA_cons_cases h2 with ⟨he2, hv2⟩ | ⟨hne2, hold2⟩
      · rw [← he1, ← he2]
      · exfalso
        have := (hb u2 n' hold2).2
        omega
      · exfalso
        have := (hb u1 n' hold1).2
        omega
      · exact hinj u1 u2 n' hold1 hold2

theorem placeAndTrack_statesSub {s : SM} (now : Nat) (id uid : String) (a b c : Nat)
    (hsub : statesSubMap s)
    (hx : ∃ n, lookupA uid s.study_map = some n ∧ 0 < n) :
    statesSubMap (placeAndTrack s now id uid a b c) := by
  intro u hu
  rw [placeAndTrack_map]
  rcases placeAndTrack_states_cases s now id uid a b c with ⟨_, hst⟩ | ⟨sOld, _, hst⟩
  · rw [hst] at hu
    rcases lookupA_cons_isSome hu with he | hold
    · rw [he]
      exact hx
    · exact hsub u hold
  · rw [hst] at hu
    rcases lookupA_setA_isSome u uid _ _ hu with he | hold
    · rw [he]
      exact hx
    · exact hsub u hold

theorem numberAndPlace_SMInv (c0 : Nat) (st : SM) (now : Nat) (id uid suid : String)
    (mo : Bool) (h : SMInv c0 st) :
    SMInv c0 (numberAndPlace st now id uid suid mo) := by
  obtain ⟨hmap, hsub⟩ := h
  unfold numberAndPlace
  dsimp only
  split
  · constructor
    · refine studyMapInv_transport ?_ ?_ (assignStudyNumber_inv uid hmap).1
      · simp only [mkdirPhase_map, nextImageNumber_map, assignSeriesNumber_map]
      · simp only [mkdirPhase_counter, nextImageNumber_counter,
          assignSeriesNumber_counter]
    · refine statesSubMap_extend hsub _ ?_ ?_
      · simp only [mkdirPhase_states, nextImageNumber_states,
          assignSeriesNumber_states, assignStudyNumber_states]
      · intro u n hn
        simp only [mkdirPhase_map, nextImageNumber_map, assignSeriesNumber_map]
        exact assignStudyNumber_map_mono _ _ hn
  · constructor
    · refine studyMapInv_transport ?_ ?_ (assignStudyNumber_inv uid hmap).1
      · simp only [placeAndTrack_map, mkdirPhase_map, nextImageNumber_map,
          assignSeriesNumber_map]
      · simp only [placeAndTrack_counter, mkdirPhase_counter,
          nextImageNumber_counter, assignSeriesNumber_counter]
    · apply placeAndTrack_statesSub
      · refine statesSubMap_extend hsub _ ?_ ?_
        · simp only [mkdirPhase_states, nextImageNumber_states,
            assignSeriesNumber_states, assignStudyNumber_states]
        · intro u n hn
          simp only [mkdirPhase_map, nextImageNumber_map, assignSeriesNumber_map]
          exact assignStudyNumber_map_mono _ _ hn
      · refine ⟨(assignStudyNumber st uid).2, ?_,
          Nat.lt_of_le_of_lt (Nat.zero_le c0) (assignStudyNumber_inv uid hmap).2⟩
        simp only [mkdirPhase_map, nextImageNumber_map, assignSeriesNumber_map]
        exact assignStudyNumber_lookup_self _ _

/-- `process_image` preserves the joint invariant under every outcome. -/
theorem process_image_SMInv (c0 : Nat) (st : SM) (now : Nat) (id : String)
    (ds : Dataset) (ao mo : Bool) (h : SMInv c0 st) :
    SMInv c0 (process_image st now id ds ao mo) := by
  obtain ⟨hmap, hsub⟩ := h
  unfold process_image
  dsimp only
  split
  · exact ⟨hmap, hsub⟩
  split
  · exact ⟨hmap, hsub⟩
  by_cases hrec : lookupA ((dsGet ds tagStudyInstanceUID).getD "") st.study_map = none
  · rw [if_pos hrec]
    split
    · exact ⟨hmap, hsub⟩
    · exact numberAndPlace_SMInv c0 _ now id _ _ mo ⟨hmap, hsub⟩
  · rw [if_neg hrec]
    split
    · exact ⟨hmap, hsub⟩
    · exact numberAndPlace_SMInv c0 _ now id _ _ mo ⟨hmap, hsub⟩

theorem completionStep_SMInv (c0 now timeout : Nat) (zipOk : String → Bool)
    (upRes : String → Option Bool) (zipSize : String → Nat) (st : SM)
    (e : String × StudySt) (h : SMInv c0 st) :
    SMInv c0 (completionStep now timeout zipOk upRes zipSize st e) := by
  obtain ⟨hmap, hsub⟩ := h
  obtain ⟨hm, hc⟩ := completionStep_map_counter now timeout zipOk upRes zipSize st e
  refine ⟨studyMapInv_transport hm hc hmap, ?_⟩
  rcases completionStep_states_cases now timeout zipOk upRes zipSize st e with hs | hs
  · intro u hu
    rw [hs] at hu
    obtain ⟨n, hn, hp⟩ := hsub u hu
    exact ⟨n, by rw [hm]; exact hn, hp⟩
  · intro u hu
    rw [hs] at hu
    obtain ⟨n, hn, hp⟩ := hsub u (lookupA_eraseA_isSome u e.1 _ hu)
    exact ⟨n, by rw [hm]; exact hn, hp⟩

theorem check_study_completions_SMInv (c0 : Nat) (st : SM) (now timeout : Nat)
    (zipOk : String → Bool) (upRes : String → Option Bool) (zipSize : String → Nat)
    (h : SMInv c0 st) :
    SMInv c0 (check_study_completions st now timeout zipOk upRes zipSize) := by
  unfold check_study_completions
  generalize st.study_states = snapshot
  induction snapshot generalizing st with
  | nil => exact h
  | cons e t ih =>
    rw [List.foldl_cons]
    exact ih _ (completionStep_SMInv c0 now timeout zipOk upRes zipSize st e h)

theorem stepEv_SMInv (c0 : Nat) (st : SM) (e : Ev) (h : SMInv c0 st) :
    SMInv c0 (stepEv st e) := by
  cases e with
  | saveTemp i n =>
    exact ⟨studyMapInv_transport rfl rfl h.1, statesSubMap_transport rfl rfl h.2⟩
  | ingest now i ds a m => exact process_image_SMInv c0 st now i ds a m h
  | tick now timeout z u s => exact check_study_completions_SMInv c0 st now timeout z u s h

theorem runEvents_SMInv (c0 : Nat) (evs : List Ev) :
    ∀ st : SM, SMInv c0 st → SMInv c0 (runEvents st evs) := by
  induction evs with
  | nil => exact fun st h => h
  | cons e t ih =>
    intro st h
    rw [runEvents, List.foldl_cons]
    exact ih _ (stepEv_SMInv c0 st e h)

theorem initSM_SMInv (names : List String) :
    SMInv (bootCounter names) (initSM names) := by
  refine ⟨⟨Nat.le_refl _, ?_, ?_⟩, ?_⟩
  · intro u n h
    simp [initSM, lookupA] at h
  · intro u1 u2 n h1 h2
    simp [initSM, lookupA] at h1
  · intro u hu
    simp [initSM, lookupA] at hu

theorem le_foldl_max_start (l : List Nat) (a : Nat) : a ≤ l.foldl Nat.max a := by
  induction l generalizing a with
  | nil => exact Nat.le_refl a
  | cons b t ih => exact Nat.le_trans (Nat.le_max_left a b) (ih (Nat.max a b))

theorem mem_le_foldl_max {x : Nat} {l : List Nat} (a : Nat) (h : x ∈ l) :
    x ≤ l.foldl Nat.max a := by
  induction l generalizing a with
  | nil => cases h
  | cons b t ih =>
    simp only [List.foldl_cons]
    rcases List.mem_cons.mp h with rfl | hm
    · exact Nat.le_trans (Nat.le_max_right a x) (le_foldl_max_start t (Nat.max a x))
    · exact ih (Nat.max a b) hm

/-- C4 (confirmed): across every sequence of events in one run (ingests
with any outcomes, completion ticks with any oracles), the
StudyInstanceUID → study-number mapping is injective, every number
assigned during the run is strictly greater than the study counter boot
value, and the boot value is an upper bound of the existing 4-digit
directory names scanned at startup (it equals their maximum, or 0 when
there are none). -/
theorem C4_injective_numbering (names : List String) (evs : List Ev) :
    (∀ u1 u2 n,
      lookupA u1 (runEvents (initSM names) evs).study_map = some n →
      lookupA u2 (runEvents (initSM names) evs).study_map = some n → u1 = u2) ∧
    (∀ u n, lookupA u (runEvents (initSM names) evs).study_map = some n →
      bootCounter names < n) ∧
    (∀ s ∈ names, (s.length = 4 && s.all Char.isDigit) = true →
      s.toNat?.getD 0 ≤ bootCounter names) := by
  obtain ⟨⟨_, hb, hinj⟩, _⟩ :=
    runEvents_SMInv (bootCounter names) evs (initSM names) (initSM_SMInv names)
  refine ⟨hinj, fun u n hn => (hb u n hn).1, ?_⟩
  intro s hs hpred
  have hmem : s.toNat?.getD 0 ∈
      (names.filter (fun s => s.length = 4 && s.all Char.isDigit)).map
        (fun s => s.toNat?.getD 0) :=
    List.mem_map_of_mem _ (List.mem_filter.mpr ⟨hs, hpred⟩)
  unfold bootCounter
  dsimp only
  rcases hl : (names.filter (fun s => s.length = 4 && s.all Char.isDigit)).map
      (fun s => s.toNat?.getD 0) with _ | ⟨x, xs⟩
  · rw [hl] at hmem
    cases hmem
  · rw [hl] at hmem ⊢
    dsimp only
    exact mem_le_foldl_max 0 hmem

/-- Closed instance of C4: booting over an empty base directory, the
first new study gets number 1, strictly above the boot value 0. -/
theorem C4_witness :
    lookupA "S" (runEvents (initSM []) [Ev.ingest 0 "a" exDs true true]).study_map
      = some 1 ∧ bootCounter [] < 1 :=
  ⟨by decide,
   (C4_injective_numbering [] [Ev.ingest 0 "a" exDs true true]).2.1 "S" 1
     (by decide)⟩

/-- C10 (confirmed): in every state reachable from boot (empty maps),
every StudyInstanceUID present in `study_states` has a nonzero study
number in `study_map` — `process_image` records the number strictly
before creating the tracking entry and the completion tracker only
removes `study_states` entries — so the tracker's "no study number
found" skip branch can never fire for a tracked study. -/
theorem C10_tracked_studies_numbered (names : List String) (evs : List Ev)
    (u : String)
    (h : (lookupA u (runEvents (initSM names) evs).study_states).isSome = true) :
    ∃ n, lookupA u (runEvents (initSM names) evs).study_map = some n ∧ 0 < n :=
  (runEvents_SMInv (bootCounter names) evs (initSM names) (initSM_SMInv names)).2 u h

/-- Closed instance of C10 after one ingest. -/
theorem C10_witness :
    (lookupA "S"
      (runEvents (initSM []) [Ev.ingest 0 "a" exDs true true]).study_states).isSome
      = true ∧
    ∃ n, lookupA "S"
      (runEvents (initSM []) [Ev.ingest 0 "a" exDs true true]).study_map = some n ∧
      0 < n :=
  ⟨by decide,
   C10_tracked_studies_numbered [] [Ev.ingest 0 "a" exDs true true] "S" (by decide)⟩

theorem completionStep_shuttingDown (now timeout : Nat) (zipOk : String → Bool)
    (upRes : String → Option Bool) (zipSize : String → Nat) (st : SM)
    (e : String × StudySt) :
    (completionStep now timeout zipOk upRes zipSize st e).shuttingDown =
      st.shuttingDown := by
  unfold completionStep
  dsimp only
  repeat' split
  all_goals rfl

theorem check_study_completions_shuttingDown (st : SM) (now timeout : Nat)
    (zipOk : String → Bool) (upRes : String → Option Bool) (zipSize : String → Nat) :
    (check_study_completions st now timeout zipOk upRes zipSize).shuttingDown =
      st.shuttingDown := by
  unfold check_study_completions
  generalize st.study_states = snapshot
  induction snapshot generalizing st with
  | nil => rfl
  | cons e t ih =>
    rw [List.foldl_cons, ih, completionStep_shuttingDown]

/-- C9 (corrected, counterexample): study S is ingested (number 1), goes
quiescent, is uploaded and purged by a tick, and the same original
StudyInstanceUID is re-ingested.  The re-ingest does start a fresh
`study_states` entry, but it is assigned the SAME study number 1 — not
a fresh one — because `study_map` survives the purge; the image even
lands at `0001/0001/0002.dcm`, continuing the old image counter. -/
theorem C9_counterexample :
    lookupA "S" (runEvents (initSM []) [Ev.ingest 0 "a" exDs true true]).study_map
      = some 1 ∧
    lookupA "S" (runEvents (initSM []) exPurgeTrace).study_map = some 1 ∧
    (runEvents (initSM []) exPurgeTrace).study_counter = 1 ∧
    lookupA "S" (runEvents (initSM []) exPurgeTrace).study_states =
      some ⟨2000, false⟩ ∧
    (runEvents (initSM []) exPurgeTrace).files = [(1, 1, 2)] := by decide

/-- C9 (amended): if a study is purged by a completion tick (its
directory deleted and its `study_states` entry removed) and an image
with the same original StudyInstanceUID is then re-ingested, the image
restarts the study's tracking (a fresh `study_states` entry) but reuses
the SAME study number it had before the purge: `check_study_completions`
never removes `study_map` entries, and `process_image` reuses the
existing mapping. -/
theorem C9_amended (st : SM) (now1 timeout : Nat) (zipOk : String → Bool)
    (upRes : String → Option Bool) (zipSize : String → Nat)
    (now2 : Nat) (id : String) (ds : Dataset) {n : Nat}
    (hm : lookupA ((dsGet ds tagStudyInstanceUID).getD "") st.study_map = some n)
    (hsd : st.shuttingDown = false)
    (h2 : validate_dicom ds = true) :
    lookupA ((dsGet ds tagStudyInstanceUID).getD "")
      (process_image (check_study_completions st now1 timeout zipOk upRes zipSize)
        now2 id ds true true).study_map = some n ∧
    (lookupA ((dsGet ds tagStudyInstanceUID).getD "")
      (process_image (check_study_completions st now1 timeout zipOk upRes zipSize)
        now2 id ds true true).study_states).isSome = true := by
  have hmap1 := check_study_completions_map st now1 timeout zipOk upRes zipSize
  have hsd1 := check_study_completions_shuttingDown st now1 timeout zipOk upRes zipSize
  constructor
  · apply process_image_map_mono
    rw [hmap1]
    exact hm
  · exact (process_image_success_effects _ now2 id ds (by rw [hsd1]; exact hsd) h2).2

/-- Closed instance of C9's amended claim on the concrete purge trace. -/
theorem C9_witness :
    lookupA "S"
      (process_image
        (check_study_completions (runEvents (initSM []) [Ev.ingest 0 "a" exDs true true])
          1000 10 (fun _ => true) (fun _ => some true) (fun _ => 5))
        2000 "b" exDs true true).study_map = some 1 :=
  (C9_amended (runEvents (initSM []) [Ev.ingest 0 "a" exDs true true])
    1000 10 (fun _ => true) (fun _ => some true) (fun _ => 5) 2000 "b" exDs
    (by decide) (by decide) (by decide)).1

/-! ### Anonymiser lemmas -/

theorem dsGet_dsSetP_ne (t : Tag) (v : String) (p : Dataset × AnonState) {u : Tag}
    (h : t ≠ u) : dsGet (dsSetP t v p).1 u = dsGet p.1 u := dsGet_dsSet_ne p.1 v h

theorem dsGet_dsSetP_self (t : Tag) (v : String) (p : Dataset × AnonState) :
    dsGet (dsSetP t v p).1 t = some v := dsGet_dsSet_self p.1 t v

theorem dsGet_dsSetIfHasP_ne (t : Tag) (v : String) (p : Dataset × AnonState) {u : Tag}
    (h : t ≠ u) : dsGet (dsSetIfHasP t v p).1 u = dsGet p.1 u :=
  dsGet_dsSetIfHas_ne p.1 v h

theorem dsGet_dsSetIfHas_self (ds : Dataset) (t : Tag) (v : String) :
    dsGet (dsSetIfHas ds t v) t = if dsHas ds t then some v else none := by
  unfold dsSetIfHas
  by_cases h : dsHas ds t = true
  · rw [if_pos h, if_pos h, dsGet_dsSet_self]
  · rw [if_neg h, if_neg h]
    unfold dsHas at h
    cases hg : dsGet ds t with
    | none => rfl
    | some x => rw [hg] at h; simp at h

theorem dsGet_dsSetIfHasP_self (t : Tag) (v : String) (p : Dataset × AnonState) :
    dsGet (dsSetIfHasP t v p).1 t = if dsHas p.1 t then some v else none :=
  dsGet_dsSetIfHas_self p.1 t v

theorem dsGet_dsEraseP_ne (t : Tag) (p : Dataset × AnonState) {u : Tag}
    (h : u ≠ t) : dsGet (dsEraseP t p).1 u = dsGet p.1 u := dsGet_dsErase_ne p.1 h

theorem dsGet_dsEraseP_self (t : Tag) (p : Dataset × AnonState) :
    dsGet (dsEraseP t p).1 t = none := dsGet_dsErase_self p.1 t

theorem dsGet_pseudoStep_ne (c : String) (t : Tag) (p : Dataset × AnonState) {u : Tag}
    (h : t ≠ u) : dsGet (pseudoStep c t p).1 u = dsGet p.1 u := by
  unfold pseudoStep
  split
  · exact dsGet_dsSet_ne p.1 _ h
  · rfl

theorem dsGet_accessionStep_ne (p : Dataset × AnonState) {u : Tag}
    (h : tagAccessionNumber ≠ u) : dsGet (accessionStep p).1 u = dsGet p.1 u :=
  dsGet_dsSet_ne p.1 _ h

theorem dsGet_foldl_erase (cs : List Tag) (ds : Dataset) (t : Tag) (h : t ∉ cs) :
    dsGet (cs.foldl (fun d c => dsErase d c) ds) t = dsGet ds t := by
  induction cs generalizing ds with
  | nil => rfl
  | cons c cs ih =>
    rw [List.foldl_cons]
    have h1 : t ∉ cs := fun hm => h (List.mem_cons_of_mem c hm)
    have h2 : t ≠ c := by
      intro he
      exact h (by rw [he]; exact List.mem_cons_self c cs)
    rw [ih _ h1, dsGet_dsErase_ne ds h2]

theorem dsGet_overlayStep_ne (p : Dataset × AnonState) {u : Tag}
    (h : u ∉ overlayLoopCodes) : dsGet (overlayStep p).1 u = dsGet p.1 u := by
  dsimp only [overlayStep]
  exact dsGet_foldl_erase overlayLoopCodes p.1 u h

theorem dsHas_dsSetP_ne (t : Tag) (v : String) (p : Dataset × AnonState) {u : Tag}
    (h : t ≠ u) : dsHas (dsSetP t v p).1 u = dsHas p.1 u := dsHas_dsSet_ne p.1 v h

theorem dsHas_dsSetIfHasP_ne (t : Tag) (v : String) (p : Dataset × AnonState) {u : Tag}
    (h : t ≠ u) : dsHas (dsSetIfHasP t v p).1 u = dsHas p.1 u :=
  dsHas_dsSetIfHas_ne p.1 v h

theorem dsHas_pseudoStep_ne (c : String) (t : Tag) (p : Dataset × AnonState) {u : Tag}
    (h : t ≠ u) : dsHas (pseudoStep c t p).1 u = dsHas p.1 u := by
  unfold pseudoStep
  split
  · exact dsHas_dsSet_ne p.1 _ h
  · rfl

theorem dsSetP_snd (t : Tag) (v : String) (p : Dataset × AnonState) :
    (dsSetP t v p).2 = p.2 := rfl

theorem dsSetIfHasP_snd (t : Tag) (v : String) (p : Dataset × AnonState) :
    (dsSetIfHasP t v p).2 = p.2 := rfl

theorem dsEraseP_snd (t : Tag) (p : Dataset × AnonState) :
    (dsEraseP t p).2 = p.2 := rfl

theorem overlayStep_snd (p : Dataset × AnonState) : (overlayStep p).2 = p.2 := rfl

theorem gpv_preserve (c : String) (s1 s2 : Option String) {st : AnonState}
    {k v : String} (h : lookupA k st.pseudo_values = some v) :
    lookupA k ((generate_pseudo_value st c s1 s2).2).pseudo_values = some v := by
  simp only [generate_pseudo_value]
  cases hl : lookupA (cache_key c s1 s2) st.pseudo_values with
  | none =>
    dsimp only
    exact lookupA_append_some _ h
  | some w =>
    dsimp only
    exact h

theorem gpv_self_cached (st : AnonState) (c : String) (s1 s2 : Option String) :
    lookupA (cache_key c s1 s2) ((generate_pseudo_value st c s1 s2).2).pseudo_values =
      some (generate_pseudo_value st c s1 s2).1 := by
  simp only [generate_pseudo_value]
  cases hl : lookupA (cache_key c s1 s2) st.pseudo_values with
  | none =>
    dsimp only
    rw [lookupA_append_none _ hl, lookupA_cons_self]
  | some v =>
    dsimp only
    exact hl

theorem gpv_cached_val {st : AnonState} {c : String} {s1 s2 : Option String}
    {v : String} (h : lookupA (cache_key c s1 s2) st.pseudo_values = some v) :
    (generate_pseudo_value st c s1 s2).1 = v := by
  simp only [generate_pseudo_value]
  rw [h]

theorem pseudoStep_snd_pres (c : String) (t : Tag) (p : Dataset × AnonState)
    {k v : String} (h : lookupA k p.2.pseudo_values = some v) :
    lookupA k ((pseudoStep c t p).2).pseudo_values = some v := by
  unfold pseudoStep
  split
  · exact gpv_preserve c none none h
  · exact h

theorem accessionStep_snd_pres (p : Dataset × AnonState) {k v : String}
    (h : lookupA k p.2.pseudo_values = some v) :
    lookupA k ((accessionStep p).2).pseudo_values = some v :=
  gpv_preserve "accession" none none h

theorem pseudoStep_snd_self (c : String) (t : Tag) (p : Dataset × AnonState)
    (h : dsHas p.1 t = true) :
    (pseudoStep c t p).2 = (generate_pseudo_value p.2 c none none).2 := by
  unfold pseudoStep
  rw [if_pos h]

theorem pseudoStep_get_self (c : String) (t : Tag) (p : Dataset × AnonState) :
    dsGet (pseudoStep c t p).1 t =
      if dsHas p.1 t then some (generate_pseudo_value p.2 c none none).1
      else dsGet p.1 t := by
  unfold pseudoStep
  by_cases h : dsHas p.1 t = true
  · rw [if_pos h, if_pos h, dsGet_dsSet_self]
  · rw [if_neg h, if_neg h]

/-- When the input has a StudyInstanceUID, the default path replaces it
with the pseudo value the registry returns for the bare category key
"study" — independent of the original value. -/
theorem DA_study_value (st : AnonState) (cd ct : String) (ds : Dataset)
    (h : dsHas ds tagStudyInstanceUID = true) :
    dsGet (default_anonymization st cd ct ds).1 tagStudyInstanceUID =
      some (generate_pseudo_value st "study" none none).1 := by
  have h' : dsHas ds 0x0020000D = true := h
  unfold default_anonymization
  simp [h', dsGet_overlayStep_ne, dsGet_dsSetIfHasP_ne, dsGet_dsSetP_ne,
    dsGet_dsEraseP_ne, dsGet_pseudoStep_ne, dsGet_accessionStep_ne,
    pseudoStep_get_self, dsHas_dsSetP_ne, dsHas_dsSetIfHasP_ne,
    dsHas_pseudoStep_ne, dsSetP_snd, dsSetIfHasP_snd, overlayLoopCodes,
    tagStudyInstanceUID, tagSeriesInstanceUID, tagSOPInstanceUID,
    tagAccessionNumber, tagBurnedIn, tagClinicalTrialProtocolID,
    tagClinicalTrialSponsorName, tagRequestAttributesSequence,
    tagPatientTelephoneNumbers, tagOtherPatientIDsSequence, tagMilitaryRank,
    tagStudyDescription, tagSeriesDescription, tagInstitutionName,
    tagInstitutionAddress, tagReferringPhysicianName, tagOperatorsName,
    tagPerformingPhysicianName, tagInstanceCreationDate, tagInstanceCreationTime,
    tagStudyDate, tagContentDate, tagAcquisitionDate, tagAcquisitionDateTime,
    tagStudyTime, tagSeriesTime, tagPatientName, tagPatientID,
    tagPatientBirthDate, tagPatientSex, tagPatientAge, tagOtherPatientIDs,
    tagPatientAddress, tagPatientSize, tagPatientWeight]

/-- The default path leaves the "study" pseudo value cached under the
bare category key in the anonymiser state. -/
theorem DA_study_cached (st : AnonState) (cd ct : String) (ds : Dataset)
    (h : dsHas ds tagStudyInstanceUID = true) :
    lookupA "study" ((default_anonymization st cd ct ds).2).pseudo_values =
      some (generate_pseudo_value st "study" none none).1 := by
  have h' : dsHas ds 0x0020000D = true := h
  unfold default_anonymization
  simp only [overlayStep_snd, dsSetIfHasP_snd, dsEraseP_snd, dsSetP_snd]
  apply accessionStep_snd_pres
  apply pseudoStep_snd_pres
  apply pseudoStep_snd_pres
  rw [pseudoStep_snd_self]
  · have hst : (dsSetIfHasP tagPatientWeight "" (dsSetIfHasP tagPatientSize ""
        (dsSetIfHasP tagPatientAddress "" (dsSetIfHasP tagOtherPatientIDs ""
        (dsSetIfHasP tagPatientAge "" (dsSetP tagPatientSex ""
        (dsSetP tagPatientBirthDate "" (dsSetP tagPatientID "ID-REDACTED"
        (dsSetP tagPatientName "Anonymous" (ds, st)))))))))).2 = st := rfl
    rw [hst]
    exact gpv_self_cached st "study" none none
  · simp [dsHas_dsSetIfHasP_ne, dsHas_dsSetP_ne, h', tagPatientWeight,
      tagPatientSize, tagPatientAddress, tagOtherPatientIDs, tagPatientAge,
      tagPatientSex, tagPatientBirthDate, tagPatientID, tagPatientName,
      tagStudyInstanceUID]

/-- When the input has both UIDs, the default path's SeriesInstanceUID
pseudo value is the registry value for the bare category key "series",
drawn after the "study" one. -/
theorem DA_series_value (st : AnonState) (cd ct : String) (ds : Dataset)
    (h1 : dsHas ds tagStudyInstanceUID = true)
    (h2 : dsHas ds tagSeriesInstanceUID = true) :
    dsGet (default_anonymization st cd ct ds).1 tagSeriesInstanceUID =
      some (generate_pseudo_value
        (generate_pseudo_value st "study" none none).2 "series" none none).1 := by
  have h1' : dsHas ds 0x0020000D = true := h1
  have h2' : dsHas ds 0x0020000E = true := h2
  unfold default_anonymization
  simp [h1', h2', dsGet_overlayStep_ne, dsGet_dsSetIfHasP_ne, dsGet_dsSetP_ne,
    dsGet_dsEraseP_ne, dsGet_pseudoStep_ne, dsGet_accessionStep_ne,
    pseudoStep_get_self, pseudoStep_snd_self, dsHas_dsSetP_ne,
    dsHas_dsSetIfHasP_ne, dsHas_pseudoStep_ne, dsSetP_snd, dsSetIfHasP_snd,
    overlayLoopCodes,
    tagStudyInstanceUID, tagSeriesInstanceUID, tagSOPInstanceUID,
    tagAccessionNumber, tagBurnedIn, tagClinicalTrialProtocolID,
    tagClinicalTrialSponsorName, tagRequestAttributesSequence,
    tagPatientTelephoneNumbers, tagOtherPatientIDsSequence, tagMilitaryRank,
    tagStudyDescription, tagSeriesDescription, tagInstitutionName,
    tagInstitutionAddress, tagReferringPhysicianName, tagOperatorsName,
    tagPerformingPhysicianName, tagInstanceCreationDate, tagInstanceCreationTime,
    tagStudyDate, tagContentDate, tagAcquisitionDate, tagAcquisitionDateTime,
    tagStudyTime, tagSeriesTime, tagPatientName, tagPatientID,
    tagPatientBirthDate, tagPatientSex, tagPatientAge, tagOtherPatientIDs,
    tagPatientAddress, tagPatientSize, tagPatientWeight]

theorem anonymize_none_eq (st : AnonState) (cd ct : String) (ds : Dataset) :
    anonymize none st cd ct ds = default_anonymization st cd ct ds := by
  unfold anonymize
  rfl

set_option maxRecDepth 4000 in
/-- C1 (corrected, counterexample): with a configured profile (touching
only PatientSex), `anonymize` leaves an overlay-group element (group
0x6000), a private element (odd group 0x0009), the sensitive tag
MilitaryRank, BurnedInAnnotation = "YES" and the original PatientName
all in place; and even the default path (no profile) keeps the
overlay-group element and the private element, because the overlay loop
deletes group-0x0000 tag codes and the default path never removes
private tags. -/
theorem C1_counterexample :
    (dsGet (anonymize (some exProfile) AnonState.fresh "d" "t" exDsFull).1
        tagPatientName = some "John Doe" ∧
     dsGet (anonymize (some exProfile) AnonState.fresh "d" "t" exDsFull).1
        0x60003000 = some "ovl" ∧
     tagGroup 0x60003000 = 0x6000 ∧
     dsGet (anonymize (some exProfile) AnonState.fresh "d" "t" exDsFull).1
        0x00090010 = some "priv" ∧
     isPrivateTag 0x00090010 = true ∧
     dsGet (anonymize (some exProfile) AnonState.fresh "d" "t" exDsFull).1
        tagMilitaryRank = some "COL" ∧
     dsGet (anonymize (some exProfile) AnonState.fresh "d" "t" exDsFull).1
        tagBurnedIn = some "YES") ∧
    (dsGet (anonymize none AnonState.fresh "d" "t" exDsFull).1
        0x60003000 = some "ovl" ∧
     dsGet (anonymize none AnonState.fresh "d" "t" exDsFull).1
        0x00090010 = some "priv") := by decide

/-- C1 (amended): under the default behaviour (no profile configured),
the output's PatientName is the constant "Anonymous" and its PatientID
is "ID-REDACTED", every tag of the closed sensitive set
(OtherPatientIDsSequence, PatientTelephoneNumbers, MilitaryRank,
RequestAttributesSequence, ClinicalTrialSponsorName,
ClinicalTrialProtocolID) is absent, and BurnedInAnnotation is either
absent or "NO".  (Private and overlay-group elements are not removed on
any path — see the counterexample.) -/
theorem C1_amended (st : AnonState) (cd ct : String) (ds : Dataset) :
    dsGet (anonymize none st cd ct ds).1 tagPatientName = some "Anonymous" ∧
    dsGet (anonymize none st cd ct ds).1 tagPatientID = some "ID-REDACTED" ∧
    dsGet (anonymize none st cd ct ds).1 tagOtherPatientIDsSequence = none ∧
    dsGet (anonymize none st cd ct ds).1 tagPatientTelephoneNumbers = none ∧
    dsGet (anonymize none st cd ct ds).1 tagMilitaryRank = none ∧
    dsGet (anonymize none st cd ct ds).1 tagRequestAttributesSequence = none ∧
    dsGet (anonymize none st cd ct ds).1 tagClinicalTrialSponsorName = none ∧
    dsGet (anonymize none st cd ct ds).1 tagClinicalTrialProtocolID = none ∧
    (dsGet (anonymize none st cd ct ds).1 tagBurnedIn = none ∨
     dsGet (anonymize none st cd ct ds).1 tagBurnedIn = some "NO") := by
  rw [anonymize_none_eq]
  refine ⟨?_, ?_, ?_, ?_, ?_, ?_, ?_, ?_, ?_⟩
  · unfold default_anonymization
    simp [dsGet_overlayStep_ne, dsGet_dsSetIfHasP_ne, dsGet_dsSetP_ne,
      dsGet_dsEraseP_ne, dsGet_dsEraseP_self, dsGet_pseudoStep_ne,
      dsGet_accessionStep_ne, dsGet_dsSetP_self, overlayLoopCodes,
      tagStudyInstanceUID, tagSeriesInstanceUID, tagSOPInstanceUID,
      tagAccessionNumber, tagBurnedIn, tagClinicalTrialProtocolID,
      tagClinicalTrialSponsorName, tagRequestAttributesSequence,
      tagPatientTelephoneNumbers, tagOtherPatientIDsSequence, tagMilitaryRank,
      tagStudyDescription, tagSeriesDescription, tagInstitutionName,
      tagInstitutionAddress, tagReferringPhysicianName, tagOperatorsName,
      tagPerformingPhysicianName, tagInstanceCreationDate, tagInstanceCreationTime,
      tagStudyDate, tagContentDate, tagAcquisitionDate, tagAcquisitionDateTime,
      tagStudyTime, tagSeriesTime, tagPatientName, tagPatientID,
      tagPatientBirthDate, tagPatientSex, tagPatientAge, tagOtherPatientIDs,
      tagPatientAddress, tagPatientSize, tagPatientWeight]
  · unfold default_anonymization
    simp [dsGet_overlayStep_ne, dsGet_dsSetIfHasP_ne, dsGet_dsSetP_ne,
      dsGet_dsEraseP_ne, dsGet_dsEraseP_self, dsGet_pseudoStep_ne,
      dsGet_accessionStep_ne, dsGet_dsSetP_self, overlayLoopCodes,
      tagStudyInstanceUID, tagSeriesInstanceUID, tagSOPInstanceUID,
      tagAccessionNumber, tagBurnedIn, tagClinicalTrialProtocolID,
      tagClinicalTrialSponsorName, tagRequestAttributesSequence,
      tagPatientTelephoneNumbers, tagOtherPatientIDsSequence, tagMilitaryRank,
      tagStudyDescription, tagSeriesDescription, tagInstitutionName,
      tagInstitutionAddress, tagReferringPhysicianName, tagOperatorsName,
      tagPerformingPhysicianName, tagInstanceCreationDate, tagInstanceCreationTime,
      tagStudyDate, tagContentDate, tagAcquisitionDate, tagAcquisitionDateTime,
      tagStudyTime, tagSeriesTime, tagPatientName, tagPatientID,
      tagPatientBirthDate, tagPatientSex, tagPatientAge, tagOtherPatientIDs,
      tagPatientAddress, tagPatientSize, tagPatientWeight]
  · unfold default_anonymization
    simp [dsGet_overlayStep_ne, dsGet_dsSetIfHasP_ne, dsGet_dsSetP_ne,
      dsGet_dsEraseP_ne, dsGet_dsEraseP_self, dsGet_pseudoStep_ne,
      dsGet_accessionStep_ne, dsGet_dsSetP_self, overlayLoopCodes,
      tagStudyInstanceUID, tagSeriesInstanceUID, tagSOPInstanceUID,
      tagAccessionNumber, tagBurnedIn, tagClinicalTrialProtocolID,
      tagClinicalTrialSponsorName, tagRequestAttributesSequence,
      tagPatientTelephoneNumbers, tagOtherPatientIDsSequence, tagMilitaryRank,
      tagStudyDescription, tagSeriesDescription, tagInstitutionName,
      tagInstitutionAddress, tagReferringPhysicianName, tagOperatorsName,
      tagPerformingPhysicianName, tagInstanceCreationDate, tagInstanceCreationTime,
      tagStudyDate, tagContentDate, tagAcquisitionDate, tagAcquisitionDateTime,
      tagStudyTime, tagSeriesTime, tagPatientName, tagPatientID,
      tagPatientBirthDate, tagPatientSex, tagPatientAge, tagOtherPatientIDs,
      tagPatientAddress, tagPatientSize, tagPatientWeight]
  · unfold default_anonymization
    simp [dsGet_overlayStep_ne, dsGet_dsSetIfHasP_ne, dsGet_dsSetP_ne,
      dsGet_dsEraseP_ne, dsGet_dsEraseP_self, dsGet_pseudoStep_ne,
      dsGet_accessionStep_ne, dsGet_dsSetP_self, overlayLoopCodes,
      tagStudyInstanceUID, tagSeriesInstanceUID, tagSOPInstanceUID,
      tagAccessionNumber, tagBurnedIn, tagClinicalTrialProtocolID,
      tagClinicalTrialSponsorName, tagRequestAttributesSequence,
      tagPatientTelephoneNumbers, tagOtherPatientIDsSequence, tagMilitaryRank,
      tagStudyDescription, tagSeriesDescription, tagInstitutionName,
      tagInstitutionAddress, tagReferringPhysicianName, tagOperatorsName,
      tagPerformingPhysicianName, tagInstanceCreationDate, tagInstanceCreationTime,
      tagStudyDate, tagContentDate, tagAcquisitionDate, tagAcquisitionDateTime,
      tagStudyTime, tagSeriesTime, tagPatientName, tagPatientID,
      tagPatientBirthDate, tagPatientSex, tagPatientAge, tagOtherPatientIDs,
      tagPatientAddress, tagPatientSize, tagPatientWeight]
  · unfold default_anonymization
    simp [dsGet_overlayStep_ne, dsGet_dsSetIfHasP_ne, dsGet_dsSetP_ne,
      dsGet_dsEraseP_ne, dsGet_dsEraseP_self, dsGet_pseudoStep_ne,
      dsGet_accessionStep_ne, dsGet_dsSetP_self, overlayLoopCodes,
      tagStudyInstanceUID, tagSeriesInstanceUID, tagSOPInstanceUID,
      tagAccessionNumber, tagBurnedIn, tagClinicalTrialProtocolID,
      tagClinicalTrialSponsorName, tagRequestAttributesSequence,
      tagPatientTelephoneNumbers, tagOtherPatientIDsSequence, tagMilitaryRank,
      tagStudyDescription, tagSeriesDescription, tagInstitutionName,
      tagInstitutionAddress, tagReferringPhysicianName, tagOperatorsName,
      tagPerformingPhysicianName, tagInstanceCreationDate, tagInstanceCreationTime,
      tagStudyDate, tagContentDate, tagAcquisitionDate, tagAcquisitionDateTime,
      tagStudyTime, tagSeriesTime, tagPatientName, tagPatientID,
      tagPatientBirthDate, tagPatientSex, tagPatientAge, tagOtherPatientIDs,
      tagPatientAddress, tagPatientSize, tagPatientWeight]
  · unfold default_anonymization
    simp [dsGet_overlayStep_ne, dsGet_dsSetIfHasP_ne, dsGet_dsSetP_ne,
      dsGet_dsEraseP_ne, dsGet_dsEraseP_self, dsGet_pseudoStep_ne,
      dsGet_accessionStep_ne, dsGet_dsSetP_self, overlayLoopCodes,
      tagStudyInstanceUID, tagSeriesInstanceUID, tagSOPInstanceUID,
      tagAccessionNumber, tagBurnedIn, tagClinicalTrialProtocolID,
      tagClinicalTrialSponsorName, tagRequestAttributesSequence,
      tagPatientTelephoneNumbers, tagOtherPatientIDsSequence, tagMilitaryRank,
      tagStudyDescription, tagSeriesDescription, tagInstitutionName,
      tagInstitutionAddress, tagReferringPhysicianName, tagOperatorsName,
      tagPerformingPhysicianName, tagInstanceCreationDate, tagInstanceCreationTime,
      tagStudyDate, tagContentDate, tagAcquisitionDate, tagAcquisitionDateTime,
      tagStudyTime, tagSeriesTime, tagPatientName, tagPatientID,
      tagPatientBirthDate, tagPatientSex, tagPatientAge, tagOtherPatientIDs,
      tagPatientAddress, tagPatientSize, tagPatientWeight]
  · unfold default_anonymization
    simp [dsGet_overlayStep_ne, dsGet_dsSetIfHasP_ne, dsGet_dsSetP_ne,
      dsGet_dsEraseP_ne, dsGet_dsEraseP_self, dsGet_pseudoStep_ne,
      dsGet_accessionStep_ne, dsGet_dsSetP_self, overlayLoopCodes,
      tagStudyInstanceUID, tagSeriesInstanceUID, tagSOPInstanceUID,
      tagAccessionNumber, tagBurnedIn, tagClinicalTrialProtocolID,
      tagClinicalTrialSponsorName, tagRequestAttributesSequence,
      tagPatientTelephoneNumbers, tagOtherPatientIDsSequence, tagMilitaryRank,
      tagStudyDescription, tagSeriesDescription, tagInstitutionName,
      tagInstitutionAddress, tagReferringPhysicianName, tagOperatorsName,
      tagPerformingPhysicianName, tagInstanceCreationDate, tagInstanceCreationTime,
      tagStudyDate, tagContentDate, tagAcquisitionDate, tagAcquisitionDateTime,
      tagStudyTime, tagSeriesTime, tagPatientName, tagPatientID,
      tagPatientBirthDate, tagPatientSex, tagPatientAge, tagOtherPatientIDs,
      tagPatientAddress, tagPatientSize, tagPatientWeight]
  · unfold default_anonymization
    simp [dsGet_overlayStep_ne, dsGet_dsSetIfHasP_ne, dsGet_dsSetP_ne,
      dsGet_dsEraseP_ne, dsGet_dsEraseP_self, dsGet_pseudoStep_ne,
      dsGet_accessionStep_ne, dsGet_dsSetP_self, overlayLoopCodes,
      tagStudyInstanceUID, tagSeriesInstanceUID, tagSOPInstanceUID,
      tagAccessionNumber, tagBurnedIn, tagClinicalTrialProtocolID,
      tagClinicalTrialSponsorName, tagRequestAttributesSequence,
      tagPatientTelephoneNumbers, tagOtherPatientIDsSequence, tagMilitaryRank,
      tagStudyDescription, tagSeriesDescription, tagInstitutionName,
      tagInstitutionAddress, tagReferringPhysicianName, tagOperatorsName,
      tagPerformingPhysicianName, tagInstanceCreationDate, tagInstanceCreationTime,
      tagStudyDate, tagContentDate, tagAcquisitionDate, tagAcquisitionDateTime,
      tagStudyTime, tagSeriesTime, tagPatientName, tagPatientID,
      tagPatientBirthDate, tagPatientSex, tagPatientAge, tagOtherPatientIDs,
      tagPatientAddress, tagPatientSize, tagPatientWeight]
  · unfold default_anonymization
    rw [dsGet_overlayStep_ne _ (by decide), dsGet_dsSetIfHasP_self]
    split
    · right; rfl
    · left; rfl

set_option maxRecDepth 4000 in
/-- C2 (corrected, counterexample): two defaults-path anonymisation
calls on datasets with distinct original StudyInstanceUIDs ("1.2.3" and
"4.5.6") on the same anonymiser instance produce the SAME pseudo
StudyInstanceUID — the first UID drawn — because the cache key is the
bare category name "study". -/
theorem C2_counterexample :
    ("1.2.3" : String) ≠ "4.5.6" ∧
    dsGet (anonymize none AnonState.fresh "d" "t"
      [(tagStudyInstanceUID, "1.2.3")]).1 tagStudyInstanceUID = some (genUID 0) ∧
    dsGet (anonymize none
      (anonymize none AnonState.fresh "d" "t" [(tagStudyInstanceUID, "1.2.3")]).2
      "d" "t" [(tagStudyInstanceUID, "4.5.6")]).1 tagStudyInstanceUID =
      some (genUID 0) := by decide

set_option maxHeartbeats 2000000 in
set_option maxRecDepth 4000 in
/-- C2 (amended): within one run, the default-path pseudo replacement is
a function of the UID category alone — the registry key is the bare
category name, so any two anonymisation calls yield the SAME pseudo
StudyInstanceUID regardless of the original values; distinct categories
still receive distinct pseudo-UIDs: on a fresh anonymiser, a
StudyInstanceUID and a SeriesInstanceUID (even with identical text) map
to two different pseudo-UIDs. -/
theorem C2_amended (st : AnonState) (cd ct cd' ct' : String) :
    (∀ ds1 ds2 : Dataset, dsHas ds1 tagStudyInstanceUID = true →
      dsHas ds2 tagStudyInstanceUID = true →
      dsGet (anonymize none st cd ct ds1).1 tagStudyInstanceUID =
        dsGet (anonymize none (anonymize none st cd ct ds1).2 cd' ct' ds2).1
          tagStudyInstanceUID) ∧
    (∀ ds : Dataset, dsHas ds tagStudyInstanceUID = true →
      dsHas ds tagSeriesInstanceUID = true →
      dsGet (anonymize none AnonState.fresh cd ct ds).1 tagStudyInstanceUID ≠
        dsGet (anonymize none AnonState.fresh cd ct ds).1 tagSeriesInstanceUID) := by
  constructor
  · intro ds1 ds2 h1 h2
    rw [anonymize_none_eq, anonymize_none_eq]
    rw [DA_study_value st cd ct ds1 h1]
    rw [DA_study_value ((default_anonymization st cd ct ds1).2) cd' ct' ds2 h2]
    have hv : (generate_pseudo_value (default_anonymization st cd ct ds1).2
        "study" none none).1 = (generate_pseudo_value st "study" none none).1 :=
      gpv_cached_val (DA_study_cached st cd ct ds1 h1)
    rw [hv]
  · intro ds hs hr
    rw [anonymize_none_eq]
    rw [DA_study_value AnonState.fresh cd ct ds hs,
      DA_series_value AnonState.fresh cd ct ds hs hr]
    decide

set_option maxRecDepth 4000 in
set_option maxHeartbeats 1000000 in
/-- Closed instance of C2's amended claim: the shared pseudo
StudyInstanceUID across two studies, and the study/series pseudo-UID
distinctness for identical original text. -/
theorem C2_witness :
    dsGet (anonymize none AnonState.fresh "d" "t"
        [(tagStudyInstanceUID, "1.2.3")]).1 tagStudyInstanceUID =
      dsGet (anonymize none
        (anonymize none AnonState.fresh "d" "t" [(tagStudyInstanceUID, "1.2.3")]).2
        "d" "t" [(tagStudyInstanceUID, "4.5.6")]).1 tagStudyInstanceUID ∧
    dsGet (anonymize none AnonState.fresh "d" "t"
        [(tagStudyInstanceUID, "X"), (tagSeriesInstanceUID, "X")]).1
        tagStudyInstanceUID ≠
      dsGet (anonymize none AnonState.fresh "d" "t"
        [(tagStudyInstanceUID, "X"), (tagSeriesInstanceUID, "X")]).1
        tagSeriesInstanceUID :=
  ⟨(C2_amended AnonState.fresh "d" "t" "d" "t").1
      [(tagStudyInstanceUID, "1.2.3")] [(tagStudyInstanceUID, "4.5.6")]
      (by decide) (by decide),
   (C2_amended AnonState.fresh "d" "t" "d" "t").2
      [(tagStudyInstanceUID, "X"), (tagSeriesInstanceUID, "X")]
      (by decide) (by decide)⟩

end PixieVeil
